import Mathlib

/-!
# Shallow embedding of the solitaire engine

This file embeds the card/pile data model, the `Game` orchestrator and the
variant rule implementations of the solitaire engine (source files
`Card.js`, `Pile.js`, `Game.js`, `GameRules.js`, `KlondikeRules.js`,
`FreeCellRules.js`, `SawayamaRules.js`, `FortunesFoundationRules.js`,
`TarotCard.js`).  JavaScript objects are modelled as Lean structures;
object identity of cards is modelled by a numeric `id`; references to the
game's pile objects are modelled as indices into the game's pile list
(the pile array is created once per deal and never reordered while moves
are played); methods that `throw` are modelled with `Option`, `none`
standing for the thrown exception.

Modelling notes, checked against the source:
* `Card.position` is write-only inside the engine (it is assigned by
  `Pile.addCard` / `Pile.removeTopCard` / `Pile.clear` / `Pile.shuffle`
  and never read by any rule or `Game` method), so the embedding omits it.
* `Card.specialProperties` is an open bag; the engine reads only its
  `type` field (`'minor'`/`'major'`, via `TarotCard.isMinorArcana` /
  `isMajorArcana`) and its `color` field (wild-card display color in
  `Card.getSuitColor`), so only those two entries are modelled.
* A JS move record stores references to the moved card objects; between a
  move and its undo the engine never mutates a moved card's fields other
  than `position` (which `Pile.addCard` overwrites on the re-add), so the
  record stores the card values captured when the record was built,
  together with the flipped card's identity.
* `move.timestamp` is wall-clock time that is never read back by the
  engine, so it is omitted from the record (`recordTimestamp` is kept in
  the configuration structure for fidelity).
* The master list `game.cards` aliases the very card objects held by the
  piles; the engine only ever reads its *length*
  (`GameRules.checkAllCardsInFoundation`), so the state stores that
  length (`cardsCount`) and the piles own the live card values.
-/

/-- A playing card (`Card.js`).  `id` models JS object identity;
`spType`/`spColor` model the `type` and `color` entries of
`specialProperties`. -/
structure Card where
  id : Nat
  suit : String
  rank : Int
  isWild : Bool
  spType : Option String
  spColor : Option String
  isFaceUp : Bool
deriving DecidableEq, Repr

/-- `Card.flip()`: toggle the face-up flag. -/
def Card.flip (c : Card) : Card :=
  { c with isFaceUp := !c.isFaceUp }

/-- `Card.getSuitColor()`: wild cards use `specialProperties.color` (or
`'purple'`); hearts/diamonds are red, everything else black. -/
def Card.getSuitColor (c : Card) : String :=
  if c.isWild then c.spColor.getD "purple"
  else if c.suit = "hearts" ∨ c.suit = "diamonds" then "red" else "black"

/-- `TarotCard.isMinorArcana()`: `specialProperties.type === 'minor'`. -/
def Card.isMinorArcana (c : Card) : Bool := c.spType == some "minor"

/-- `TarotCard.isMajorArcana()`: `specialProperties.type === 'major'`. -/
def Card.isMajorArcana (c : Card) : Bool := c.spType == some "major"

/-- An ordered pile of cards (`Pile.js`); the last list entry is the top
of the pile. -/
structure Pile where
  ptype : String
  index : Nat
  cards : List Card
  maxCards : Option Nat
deriving DecidableEq, Repr

/-- `Pile.getTopCard()`: the last card, or null. -/
def Pile.getTopCard (p : Pile) : Option Card := p.cards.getLast?

/-- `Pile.isEmpty()`. -/
def Pile.isEmptyP (p : Pile) : Bool := p.cards.isEmpty

/-- `Pile.addCard(card)`: throws (`none`) when `maxCards` is set, nonzero
(JS truthiness of `this.maxCards`) and already reached; otherwise pushes
the card on top. -/
def Pile.addCard (p : Pile) (c : Card) : Option Pile :=
  match p.maxCards with
  | some m => if m ≠ 0 ∧ m ≤ p.cards.length then none
              else some { p with cards := p.cards ++ [c] }
  | none => some { p with cards := p.cards ++ [c] }

/-- `Pile.removeTopCard()`: throws (`none`) on an empty pile, otherwise
pops and returns the top card. -/
def Pile.removeTopCard (p : Pile) : Option (Card × Pile) :=
  match p.cards.getLast? with
  | none => none
  | some c => some (c, { p with cards := p.cards.dropLast })

/-- The `removeTopCard` loop of `Game.makeStackMove`/`undoMove`: remove
`n` cards from the top, one at a time, discarding them; `none` when the
pile runs empty (the JS call throws). -/
def Pile.removeTops : Pile → Nat → Option Pile
  | p, 0 => some p
  | p, n + 1 =>
    match p.removeTopCard with
    | none => none
    | some (_, p') => p'.removeTops n

/-- The `addCard` loop of `Game.makeStackMove`/`undoMove`: push the cards
in list order (so the last list entry ends on top); `none` if any push
exceeds capacity. -/
def Pile.addAll : Pile → List Card → Option Pile
  | p, [] => some p
  | p, c :: cs =>
    match p.addCard c with
    | none => none
    | some p' => p'.addAll cs

/-- A move record (`Game.makeMove`/`makeStackMove`): single moves store
`card`, stack moves store `cards`; `fromPile`/`toPile` are references to
the game's pile objects (indices into the pile list); `flippedCard` is
the identity of the card flipped by the move, if any. -/
structure MoveRecord where
  card : Option Card
  cards : Option (List Card)
  fromPile : Option Nat
  toPile : Option Nat
  flippedCard : Option Nat
deriving DecidableEq, Repr

/-- The orchestrator state (`Game.js`).  `cardsCount` is the length of
the master card list `this.cards` (the only thing the engine reads from
it). -/
structure GameState where
  piles : List Pile
  cardsCount : Nat
  score : Int
  moves : List MoveRecord
  gameStarted : Bool
  gameWon : Bool
deriving DecidableEq, Repr

/-- Total number of cards currently held by the game's piles. -/
def GameState.totalCards (g : GameState) : Nat :=
  (g.piles.map (fun p => p.cards.length)).sum

/-- Helper for `Game.findCardPile`: scan the pile list for the first pile
containing the card (JS compares object identity, i.e. `id`), returning
the pile's array index, the pile and the stored card value. -/
def findCardPileAux (cid : Nat) : List Pile → Nat → Option (Nat × Pile × Card)
  | [], _ => none
  | p :: ps, i =>
    match p.cards.find? (fun c => c.id == cid) with
    | some c => some (i, p, c)
    | none => findCardPileAux cid ps (i + 1)

/-- `Game.findCardPile(card)`: the first pile whose cards contain the
given card object. -/
def GameState.findCardPile (g : GameState) (cid : Nat) : Option (Nat × Pile × Card) :=
  findCardPileAux cid g.piles 0

/-! ## GameRules base class (`GameRules.js`): declarative interpreters -/

/-- One entry of a `getCardFlippingRules()` table. -/
structure FlipRule where
  flipOnEmpty : Bool
  flipOnMove : Bool
  flipCondition : String
deriving DecidableEq, Repr

/-- `getMoveRecordingConfig()` result. -/
structure MoveRecordingConfig where
  recordCard : Bool
  recordCards : Bool
  recordFromPile : Bool
  recordToPile : Bool
  recordTimestamp : Bool
deriving DecidableEq, Repr

/-- A declarative blocking condition (`getBlockingConditions()` entries).
Absent JS fields are `none`. -/
structure BlockCondition where
  btype : String
  pileType : Option String
  pileIndex : Option Nat
  operator : Option String
  count : Option Int
  name : Option String
deriving DecidableEq, Repr

/-- A declarative win condition (`getWinConditions()` entries). -/
structure WinCondition where
  wtype : String
  pileType : Option String
  required : Option String
  cardsPerPile : Option Nat
deriving DecidableEq, Repr

namespace GameRules

/-- `GameRules.getMoveRecordingConfig()` — no variant overrides it, so
every rules object uses this table. -/
def baseMoveRecordingConfig : MoveRecordingConfig :=
  ⟨true, true, true, true, true⟩

/-- `GameRules.getCardFlippingRules()` (base table): `tableau` flips the
newly exposed top card when face down; `foundation`/`stock` never flip;
other pile types (e.g. `waste`) have no entry. -/
def getCardFlippingRules (t : String) : Option FlipRule :=
  if t = "tableau" then some ⟨false, true, "faceDown"⟩
  else if t = "foundation" then some ⟨false, false, "never"⟩
  else if t = "stock" then some ⟨false, false, "never"⟩
  else none

/-- `GameRules.getMoveScore(card, targetPile, gameState)` with the base
`getScoringRules()` table: 10 for foundation, 1 for tableau, 0 for
freecell/stock/waste, and 0 for an unknown pile type. -/
def getMoveScore (_card : Card) (targetPile : Pile) (_g : GameState) : Int :=
  if targetPile.ptype = "foundation" then 10
  else if targetPile.ptype = "tableau" then 1
  else if targetPile.ptype = "freecell" then 0
  else if targetPile.ptype = "stock" then 0
  else if targetPile.ptype = "waste" then 0
  else 0

/-- `GameRules.compareCardCount(actualCount, operator, expectedCount)`.
An absent (`undefined`) operator hits the `default` branch; comparisons
against an absent expected count mirror JS semantics (`===` is false,
`!==` is true, the order operators are false on `undefined`). -/
def compareCardCount (actualCount : Int) (operator : Option String)
    (expectedCount : Option Int) : Bool :=
  match operator with
  | none => false
  | some op =>
    if op = "=" ∨ op = "==" then
      match expectedCount with
      | some e => actualCount == e
      | none => false
    else if op = "!=" ∨ op = "<>" then
      match expectedCount with
      | some e => actualCount != e
      | none => true
    else if op = "<" then
      match expectedCount with
      | some e => decide (actualCount < e)
      | none => false
    else if op = "<=" then
      match expectedCount with
      | some e => decide (actualCount ≤ e)
      | none => false
    else if op = ">" then
      match expectedCount with
      | some e => decide (actualCount > e)
      | none => false
    else if op = ">=" then
      match expectedCount with
      | some e => decide (actualCount ≥ e)
      | none => false
    else false

/-- `GameRules.checkPileNotEmpty(condition, gameState)`. -/
def checkPileNotEmpty (c : BlockCondition) (g : GameState) : Bool :=
  let piles := g.piles.filter (fun p => some p.ptype == c.pileType)
  match c.pileIndex with
  | some i =>
    match piles.find? (fun p => p.index == i) with
    | some p => !p.cards.isEmpty
    | none => false
  | none => piles.any (fun p => !p.cards.isEmpty)

/-- `GameRules.checkPileEmpty(condition, gameState)` (note the `true`
fallback when a specific pile index is not found). -/
def checkPileEmpty (c : BlockCondition) (g : GameState) : Bool :=
  let piles := g.piles.filter (fun p => some p.ptype == c.pileType)
  match c.pileIndex with
  | some i =>
    match piles.find? (fun p => p.index == i) with
    | some p => p.cards.isEmpty
    | none => true
  | none => piles.all (fun p => p.cards.isEmpty)

/-- `GameRules.checkPileCardCount(condition, gameState)`. -/
def checkPileCardCount (c : BlockCondition) (g : GameState) : Bool :=
  let piles := g.piles.filter (fun p => some p.ptype == c.pileType)
  match c.pileIndex with
  | some i =>
    match piles.find? (fun p => p.index == i) with
    | some p => compareCardCount (p.cards.length : Int) c.operator c.count
    | none => false
  | none => piles.any (fun p => compareCardCount (p.cards.length : Int) c.operator c.count)

/-- `GameRules.evaluateBlockingCondition(condition, gameState, targetPile)`,
parametrized by the variant's `evaluateCustomBlockingCondition` override.
An unrecognized `condition.type` falls through to `false`. -/
def evaluateBlockingCondition
    (custom : BlockCondition → GameState → Option Pile → Bool)
    (c : BlockCondition) (g : GameState) (targetPile : Option Pile) : Bool :=
  if c.btype = "pileNotEmpty" then checkPileNotEmpty c g
  else if c.btype = "pileEmpty" then checkPileEmpty c g
  else if c.btype = "pileCardCount" then checkPileCardCount c g
  else if c.btype = "custom" then custom c g targetPile
  else false

/-- `GameRules.isPileTypeBlocked(pileType, gameState, targetPile)`:
OR-semantics over the conditions declared for the pile type (the JS
for-loop with early `return true` is `List.any`). -/
def isPileTypeBlocked
    (getBlockingConditions : String → Option (List BlockCondition))
    (custom : BlockCondition → GameState → Option Pile → Bool)
    (pileType : String) (g : GameState) (targetPile : Option Pile) : Bool :=
  match getBlockingConditions pileType with
  | none => false
  | some conds => conds.any (fun c => evaluateBlockingCondition custom c g targetPile)

/-- `GameRules.checkFoundationComplete(condition, gameState)`; JS
`condition.required || 'all'` and `length === condition.cardsPerPile`
(false against an absent count). -/
def checkFoundationComplete (c : WinCondition) (g : GameState) : Bool :=
  let foundationPiles := g.piles.filter (fun p => p.ptype == "foundation")
  let required := c.required.getD "all"
  if required = "all" then
    foundationPiles.all (fun p => some p.cards.length == c.cardsPerPile)
  else if required = "any" then
    foundationPiles.any (fun p => some p.cards.length == c.cardsPerPile)
  else false

/-- `GameRules.checkTableauEmpty(condition, gameState)`. -/
def checkTableauEmpty (c : WinCondition) (g : GameState) : Bool :=
  let tableauPiles := g.piles.filter (fun p => p.ptype == "tableau")
  let required := c.required.getD "all"
  if required = "all" then tableauPiles.all (fun p => p.cards.isEmpty)
  else if required = "any" then tableauPiles.any (fun p => p.cards.isEmpty)
  else false

/-- `GameRules.checkAllCardsInFoundation(condition, gameState)`. -/
def checkAllCardsInFoundation (_c : WinCondition) (g : GameState) : Bool :=
  ((g.piles.filter (fun p => p.ptype == "foundation")).map
    (fun p => p.cards.length)).sum == g.cardsCount

/-- `GameRules.checkWinConditionType(condition, gameState)`, parametrized
by the variant's `checkCustomWinCondition` override.  An unrecognized
`condition.type` falls through to `false`. -/
def checkWinConditionType
    (custom : WinCondition → GameState → Bool)
    (c : WinCondition) (g : GameState) : Bool :=
  if c.wtype = "foundationComplete" then checkFoundationComplete c g
  else if c.wtype = "tableauEmpty" then checkTableauEmpty c g
  else if c.wtype = "allCardsInFoundation" then checkAllCardsInFoundation c g
  else if c.wtype = "custom" then custom c g
  else false

/-- `GameRules.checkWinCondition(gameState)`: every declared condition
must hold (the JS for-loop with early `return false` is `List.all`). -/
def checkWinCondition
    (winConditions : List WinCondition)
    (custom : WinCondition → GameState → Bool)
    (g : GameState) : Bool :=
  winConditions.all (fun c => checkWinConditionType custom c g)

/-- `GameRules.checkCustomWinCondition` (base): always false. -/
def checkCustomWinCondition (_c : WinCondition) (_g : GameState) : Bool := false

/-- `GameRules.evaluateCustomBlockingCondition` (base): always false. -/
def evaluateCustomBlockingCondition (_c : BlockCondition) (_g : GameState)
    (_t : Option Pile) : Bool := false

end GameRules

/-- The capability record the orchestrator dispatches through
(`this.gameRules`): exactly the methods `Game.makeMove`,
`makeStackMove`, `isValidMove` and `undoMove` call. -/
structure Rules where
  isValidMove : Card → Pile → GameState → Bool
  canCardBeMovedFromPile : Card → Pile → GameState → Bool
  getMoveScore : Card → Pile → GameState → Int
  getCardFlippingRules : String → Option FlipRule
  checkWinCondition : GameState → Bool
  getMoveRecordingConfig : MoveRecordingConfig

/-! ## Game orchestrator (`Game.js`) -/

namespace Game

/-- `Game.flipTopCardIfNeededAndRecord(pile)`: flip the pile's top card
when the pile type's flipping rule fires (`flipOnMove` with a nonempty
pile, and either condition `'faceDown'` on a face-down top card or
condition `'always'`); returns the updated pile and the identity of the
flipped card, if any. -/
def flipTopCardIfNeededAndRecord (R : Rules) (pile : Pile) : Pile × Option Nat :=
  match R.getCardFlippingRules pile.ptype with
  | none => (pile, none)
  | some pileRules =>
    if pileRules.flipOnMove then
      match pile.cards.getLast? with
      | none => (pile, none)
      | some topCard =>
        if (pileRules.flipCondition = "faceDown" ∧ topCard.isFaceUp = false)
            ∨ pileRules.flipCondition = "always" then
          ({ pile with cards := pile.cards.dropLast ++ [topCard.flip] }, some topCard.id)
        else (pile, none)
    else (pile, none)

/-- `Game.flipTopCardIfNeeded(pile)`: identical logic, discarding the
flipped card (the JS source duplicates the body). -/
def flipTopCardIfNeeded (R : Rules) (pile : Pile) : Pile :=
  (flipTopCardIfNeededAndRecord R pile).1

/-- `Game.isValidMove(card, targetPile)`: the card must be found in some
pile, be movable from it (`canCardBeMovedFromPile`), and the rules must
accept the target (`gameRules.isValidMove`). -/
def isValidMove (R : Rules) (g : GameState) (cid : Nat) (tIdx : Nat) : Bool :=
  match g.findCardPile cid, g.piles.get? tIdx with
  | some (_, sourcePile, card), some targetPile =>
    R.canCardBeMovedFromPile card sourcePile g && R.isValidMove card targetPile g
  | _, _ => false

/-- `Game.makeMove(card, targetPile)`.  The target is one of the game's
piles (an index into the pile list).  Returns `none` where the JS code
throws (`Pile.addCard` over capacity — never the case for the game's own
piles, which are created without `maxCards`).  Note that on the success
path the source pile's *top* card is popped while the *argument* card is
appended to the target, exactly as in the source. -/
def makeMove (R : Rules) (g : GameState) (cid : Nat) (tIdx : Nat) :
    Option (Bool × GameState) :=
  match g.piles.get? tIdx with
  | none => none
  | some _ =>
    if isValidMove R g cid tIdx = false then some (false, g)
    else
      match g.findCardPile cid with
      | none => some (false, g)
      | some (sIdx, sourcePile, card) =>
        let mc := R.getMoveRecordingConfig
        match sourcePile.removeTopCard with
        | none => none
        | some (_, source1) =>
          let piles1 := g.piles.set sIdx source1
          match piles1.get? tIdx with
          | none => none
          | some target1 =>
            match target1.addCard card with
            | none => none
            | some target2 =>
              let piles2 := piles1.set tIdx target2
              let gMid : GameState := { g with piles := piles2 }
              let moveScore := R.getMoveScore card target2 gMid
              match piles2.get? sIdx with
              | none => none
              | some source2 =>
                let fp := flipTopCardIfNeededAndRecord R source2
                let piles3 := piles2.set sIdx fp.1
                let move : MoveRecord :=
                  { card := if mc.recordCard then some card else none
                    cards := none
                    fromPile := if mc.recordFromPile then some sIdx else none
                    toPile := if mc.recordToPile then some tIdx else none
                    flippedCard := fp.2 }
                let g2 : GameState :=
                  { g with piles := piles3
                           score := g.score + moveScore
                           moves := g.moves ++ [move] }
                some (true, { g2 with gameWon := R.checkWinCondition g2 })

/-- `Game.makeStackMove(card, targetPile, cardStack)`: same gating, but
`cardStack.length` cards are popped from the source pile (whatever they
are) and the caller-supplied `cardStack` is appended to the target; the
engine does not re-derive or validate the run. -/
def makeStackMove (R : Rules) (g : GameState) (cid : Nat) (tIdx : Nat)
    (cardStack : List Card) : Option (Bool × GameState) :=
  match g.piles.get? tIdx with
  | none => none
  | some _ =>
    if isValidMove R g cid tIdx = false then some (false, g)
    else
      match g.findCardPile cid with
      | none => some (false, g)
      | some (sIdx, sourcePile, card) =>
        let mc := R.getMoveRecordingConfig
        match sourcePile.removeTops cardStack.length with
        | none => none
        | some source1 =>
          let piles1 := g.piles.set sIdx source1
          match piles1.get? tIdx with
          | none => none
          | some target1 =>
            match target1.addAll cardStack with
            | none => none
            | some target2 =>
              let piles2 := piles1.set tIdx target2
              let gMid : GameState := { g with piles := piles2 }
              let moveScore := R.getMoveScore card target2 gMid
              match piles2.get? sIdx with
              | none => none
              | some source2 =>
                let fp := flipTopCardIfNeededAndRecord R source2
                let piles3 := piles2.set sIdx fp.1
                let move : MoveRecord :=
                  { card := none
                    cards := if mc.recordCards then some cardStack else none
                    fromPile := if mc.recordFromPile then some sIdx else none
                    toPile := if mc.recordToPile then some tIdx else none
                    flippedCard := fp.2 }
                let g2 : GameState :=
                  { g with piles := piles3
                           score := g.score + moveScore
                           moves := g.moves ++ [move] }
                some (true, { g2 with gameWon := R.checkWinCondition g2 })

/-- `lastMove.flippedCard.flip()` in `Game.undoMove`: the recorded card
object is flipped in place; in the embedding the card is flipped wherever
it is currently stored (cards carry unique identities in every state the
engine builds). -/
def flipCardById (piles : List Pile) (fid : Nat) : List Pile :=
  piles.map (fun p =>
    { p with cards := p.cards.map (fun c => if c.id == fid then c.flip else c) })

/-- `Game.undoMove()`: pop the last move record; move its card(s) back
from target to source pile; subtract the move's score (re-computed on the
restored piles); re-run the source pile's flip rule; flip back the card
the move flipped.  `none` models the JS exceptions (missing record
fields, popping an empty pile, add over capacity).  `gameWon` is *not*
recomputed, as in the source. -/
def undoMove (R : Rules) (g : GameState) : Option (Bool × GameState) :=
  match g.moves.getLast? with
  | none => some (false, g)
  | some lastMove =>
    let moves' := g.moves.dropLast
    let restore : Option (List Pile × Int) :=
      match lastMove.cards with
      | some stack =>
        if stack.isEmpty then some (g.piles, g.score)
        else
          match lastMove.toPile, lastMove.fromPile with
          | some toIdx, some fromIdx =>
            match g.piles.get? toIdx with
            | none => none
            | some toP =>
              match toP.removeTops stack.length with
              | none => none
              | some toP' =>
                let piles1 := g.piles.set toIdx toP'
                match piles1.get? fromIdx with
                | none => none
                | some fromP =>
                  match fromP.addAll stack with
                  | none => none
                  | some fromP' =>
                    let piles2 := piles1.set fromIdx fromP'
                    let gU : GameState := { g with piles := piles2, moves := moves' }
                    match piles2.get? toIdx, stack.getLast? with
                    | some toPcur, some topCard =>
                      some (piles2, g.score - R.getMoveScore topCard toPcur gU)
                    | _, _ => none
          | _, _ => none
      | none =>
        match lastMove.card with
        | some c =>
          match lastMove.toPile, lastMove.fromPile with
          | some toIdx, some fromIdx =>
            match g.piles.get? toIdx with
            | none => none
            | some toP =>
              match toP.removeTopCard with
              | none => none
              | some (_, toP') =>
                let piles1 := g.piles.set toIdx toP'
                match piles1.get? fromIdx with
                | none => none
                | some fromP =>
                  match fromP.addCard c with
                  | none => none
                  | some fromP' =>
                    let piles2 := piles1.set fromIdx fromP'
                    let gU : GameState := { g with piles := piles2, moves := moves' }
                    match piles2.get? toIdx with
                    | some toPcur =>
                      some (piles2, g.score - R.getMoveScore c toPcur gU)
                    | none => none
          | _, _ => none
        | none => some (g.piles, g.score)
    match restore, lastMove.fromPile with
    | some (piles2, score2), some fromIdx =>
      match piles2.get? fromIdx with
      | none => none
      | some fromP2 =>
        let piles3 := piles2.set fromIdx (flipTopCardIfNeeded R fromP2)
        let piles4 :=
          match lastMove.flippedCard with
          | some fid => flipCardById piles3 fid
          | none => piles3
        some (true, { g with piles := piles4, score := score2, moves := moves' })
    | some _, none => none
    | none, _ => none

end Game

/-! ## Klondike variant (`KlondikeRules.js`) -/

namespace KlondikeRules

/-- `KlondikeRules.getSuitColor(card)` (rules-level helper; unlike
`Card.getSuitColor` it ignores wildness). -/
def getSuitColor (card : Card) : String :=
  if card.suit = "hearts" ∨ card.suit = "diamonds" then "red" else "black"

/-- `KlondikeRules.canStackCards(card, targetCard)`: target face up,
descending rank, alternating colors. -/
def canStackCards (card targetCard : Card) : Bool :=
  if targetCard.isFaceUp = false then false
  else (card.rank == targetCard.rank - 1) && (getSuitColor card != getSuitColor targetCard)

/-- `KlondikeRules.isValidFoundationMove(card, targetPile, gameState)`. -/
def isValidFoundationMove (card : Card) (targetPile : Pile) : Bool :=
  if targetPile.ptype != "foundation" then false
  else
    match targetPile.getTopCard with
    | none => card.rank == 1
    | some topCard => (card.suit == topCard.suit) && (card.rank == topCard.rank + 1)

/-- `KlondikeRules.isValidTableauMove(card, targetPile, gameState)`. -/
def isValidTableauMove (card : Card) (targetPile : Pile) : Bool :=
  if targetPile.ptype != "tableau" then false
  else
    match targetPile.getTopCard with
    | none => card.rank == 13
    | some topCard => canStackCards card topCard

/-- `KlondikeRules.isValidMove(card, targetPile, gameState)`. -/
def isValidMove (card : Card) (targetPile : Pile) (_g : GameState) : Bool :=
  if targetPile.ptype = "foundation" then isValidFoundationMove card targetPile
  else if targetPile.ptype = "tableau" then isValidTableauMove card targetPile
  else false

/-- `KlondikeRules.canCardBeMovedFromPile(card, sourcePile, gameState)`:
never from a foundation; from the tableau only face-up cards; from
stock/waste only the top card (object identity). -/
def canCardBeMovedFromPile (card : Card) (sourcePile : Pile) (_g : GameState) : Bool :=
  if sourcePile.ptype = "foundation" then false
  else if sourcePile.ptype = "tableau" then card.isFaceUp
  else if sourcePile.ptype = "stock" ∨ sourcePile.ptype = "waste" then
    match sourcePile.getTopCard with
    | some topCard => topCard.id == card.id
    | none => false
  else false

/-- `KlondikeRules.getMoveScore(card, targetPile, gameState)`. -/
def getMoveScore (_card : Card) (targetPile : Pile) (_g : GameState) : Int :=
  if targetPile.ptype = "foundation" then 10
  else if targetPile.ptype = "tableau" then 1
  else 0

/-- `KlondikeRules.getCardFlippingRules()`. -/
def getCardFlippingRules (t : String) : Option FlipRule :=
  if t = "tableau" then some ⟨false, true, "faceDown"⟩
  else if t = "foundation" then some ⟨false, false, "never"⟩
  else if t = "stock" then some ⟨false, false, "never"⟩
  else none

/-- `KlondikeRules.getWinConditions()` (the later of the two identical
declarations in the class body, which is the effective one). -/
def getWinConditions : List WinCondition :=
  [⟨"foundationComplete", some "foundation", some "all", some 13⟩]

/-- `KlondikeRules.checkWinCondition` is inherited from the base class,
applied to Klondike's declared win-condition list. -/
def checkWinCondition (g : GameState) : Bool :=
  GameRules.checkWinCondition getWinConditions GameRules.checkCustomWinCondition g

end KlondikeRules

/-- A `KlondikeRules` instance viewed through the orchestrator's
capability record. -/
def klondikeRules : Rules :=
  { isValidMove := KlondikeRules.isValidMove
    canCardBeMovedFromPile := KlondikeRules.canCardBeMovedFromPile
    getMoveScore := KlondikeRules.getMoveScore
    getCardFlippingRules := KlondikeRules.getCardFlippingRules
    checkWinCondition := KlondikeRules.checkWinCondition
    getMoveRecordingConfig := GameRules.baseMoveRecordingConfig }

/-! ## FreeCell variant (`FreeCellRules.js`, class `FreeCellRules`) -/

namespace FreeCellRules

/-- `FreeCellRules.isValidFoundationMove(card, targetPile, gameState)`
(no pile-type guard in the source; only called with foundation piles). -/
def isValidFoundationMove (card : Card) (targetPile : Pile) : Bool :=
  match targetPile.cards.getLast? with
  | none => card.rank == 1
  | some topCard => (card.suit == topCard.suit) && (card.rank == topCard.rank + 1)

/-- `FreeCellRules.isValidTableauMove(card, targetPile, gameState)`:
empty tableau accepts anything; otherwise alternating card-level suit
colors and descending rank. -/
def isValidTableauMove (card : Card) (targetPile : Pile) : Bool :=
  match targetPile.cards.getLast? with
  | none => true
  | some topCard =>
    (card.getSuitColor != topCard.getSuitColor) && (card.rank == topCard.rank - 1)

/-- `FreeCellRules.isValidFreeCellMove(card, targetPile, gameState)`:
free cells hold at most one card. -/
def isValidFreeCellMove (_card : Card) (targetPile : Pile) : Bool :=
  targetPile.cards.isEmpty

/-- `FreeCellRules.isValidMove(card, targetPile, gameState)`. -/
def isValidMove (card : Card) (targetPile : Pile) (_g : GameState) : Bool :=
  if targetPile.ptype = "foundation" then isValidFoundationMove card targetPile
  else if targetPile.ptype = "tableau" then isValidTableauMove card targetPile
  else if targetPile.ptype = "freecell" then isValidFreeCellMove card targetPile
  else false

/-- `FreeCellRules.getMaxMoveableCards(gameState)`:
`(empty free cells + 1) * 2 ^ (empty tableau piles)`. -/
def getMaxMoveableCards (g : GameState) : Nat :=
  let emptyFreeCells :=
    (g.piles.filter (fun p => p.ptype == "freecell" && p.cards.isEmpty)).length
  let emptyTableauPiles :=
    (g.piles.filter (fun p => p.ptype == "tableau" && p.cards.isEmpty)).length
  (emptyFreeCells + 1) * 2 ^ emptyTableauPiles

/-- `FreeCellRules.canMoveStack(cards, targetPile, gameState)`: the
bottom card must fit the target and the run length must not exceed
`getMaxMoveableCards`.  With an empty `cards` array the JS code reads
`cards[0]` (`undefined`): against an empty target pile
`isValidTableauMove` returns `true` before dereferencing it, otherwise it
crashes (`none`). -/
def canMoveStack (cards : List Card) (targetPile : Pile) (g : GameState) : Option Bool :=
  match cards with
  | [] =>
    if targetPile.cards.isEmpty then some (decide (cards.length ≤ getMaxMoveableCards g))
    else none
  | bottomCard :: _ =>
    some (if isValidTableauMove bottomCard targetPile = false then false
          else decide (cards.length ≤ getMaxMoveableCards g))

/-- `FreeCellRules.checkWinCondition(gameState)` (overridden: direct
check, every foundation pile holds 13 cards). -/
def checkWinCondition (g : GameState) : Bool :=
  (g.piles.filter (fun p => p.ptype == "foundation")).all
    (fun p => p.cards.length == 13)

/-- `FreeCellRules.getWinConditions()`. -/
def getWinConditions : List WinCondition :=
  [⟨"foundationComplete", some "foundation", some "all", some 13⟩]

end FreeCellRules

/-! ## Sawayama variant (`SawayamaRules.js`) -/

namespace SawayamaRules

/-- `SawayamaRules.isValidFoundationMove(card, targetPile, gameState)`. -/
def isValidFoundationMove (card : Card) (targetPile : Pile) : Bool :=
  match targetPile.cards.getLast? with
  | none => card.rank == 1
  | some topCard => (card.suit == topCard.suit) && (card.rank == topCard.rank + 1)

/-- `SawayamaRules.isValidTableauMove(card, targetPile, gameState)`:
an empty tableau accepts any card (unlike Klondike); otherwise
alternating colors (via `Card.getSuitColor`) and descending rank. -/
def isValidTableauMove (card : Card) (targetPile : Pile) : Bool :=
  match targetPile.cards.getLast? with
  | none => true
  | some topCard =>
    (card.getSuitColor != topCard.getSuitColor) && (card.rank == topCard.rank - 1)

/-- `SawayamaRules.getBlockingConditions()`: the free cell is blocked
while the stock pile is not empty. -/
def getBlockingConditions (t : String) : Option (List BlockCondition) :=
  if t = "freecell" then
    some [⟨"pileNotEmpty", some "stock", none, none, none, none⟩]
  else none

/-- `SawayamaRules.isValidFreeCellMove(card, targetPile, gameState)`:
rejected while the free cell is blocked by the stock pile, otherwise the
cell must be empty. -/
def isValidFreeCellMove (_card : Card) (targetPile : Pile) (g : GameState) : Bool :=
  if GameRules.isPileTypeBlocked getBlockingConditions
      GameRules.evaluateCustomBlockingCondition "freecell" g (some targetPile) then
    false
  else targetPile.cards.isEmpty

/-- `SawayamaRules.isValidMove(card, targetPile, gameState)`. -/
def isValidMove (card : Card) (targetPile : Pile) (g : GameState) : Bool :=
  if targetPile.ptype = "foundation" then isValidFoundationMove card targetPile
  else if targetPile.ptype = "tableau" then isValidTableauMove card targetPile
  else if targetPile.ptype = "freecell" then isValidFreeCellMove card targetPile g
  else false

/-- `SawayamaRules.canCardBeMovedFromPile(card, sourcePile, gameState)`:
never from a foundation; any card from tableau or free cell; only the
top card from stock/waste. -/
def canCardBeMovedFromPile (card : Card) (sourcePile : Pile) (_g : GameState) : Bool :=
  if sourcePile.ptype = "foundation" then false
  else if sourcePile.ptype = "tableau" ∨ sourcePile.ptype = "freecell" then true
  else if sourcePile.ptype = "stock" ∨ sourcePile.ptype = "waste" then
    match sourcePile.getTopCard with
    | some topCard => topCard.id == card.id
    | none => false
  else false

/-- `SawayamaRules.getWinConditions()`. -/
def getWinConditions : List WinCondition :=
  [⟨"foundationComplete", none, some "all", some 13⟩]

/-- `SawayamaRules.checkWinCondition` is inherited from the base class. -/
def checkWinCondition (g : GameState) : Bool :=
  GameRules.checkWinCondition getWinConditions GameRules.checkCustomWinCondition g

end SawayamaRules

/-- A `SawayamaRules` instance viewed through the orchestrator's
capability record (`getMoveScore` and `getCardFlippingRules` are
inherited from the base class). -/
def sawayamaRules : Rules :=
  { isValidMove := SawayamaRules.isValidMove
    canCardBeMovedFromPile := SawayamaRules.canCardBeMovedFromPile
    getMoveScore := GameRules.getMoveScore
    getCardFlippingRules := GameRules.getCardFlippingRules
    checkWinCondition := SawayamaRules.checkWinCondition
    getMoveRecordingConfig := GameRules.baseMoveRecordingConfig }

/-! ## Fortune's Foundation variant (`FortunesFoundationRules.js`, the
effective (second) class declaration, which wires foundation blocking
through the generalized blocking system) -/

namespace FortunesFoundationRules

/-- `FortunesFoundationRules.getBlockingConditions()`. -/
def getBlockingConditions (t : String) : Option (List BlockCondition) :=
  if t = "foundation" then
    some [⟨"custom", none, none, none, none, some "minorArcanaFreeCellBlocking"⟩]
  else none

/-- `FortunesFoundationRules.evaluateCustomBlockingCondition(condition,
gameState, targetPile)`: Minor-Arcana foundations (indices 0-3) are
blocked while any free cell is occupied. -/
def evaluateCustomBlockingCondition (c : BlockCondition) (g : GameState)
    (targetPile : Option Pile) : Bool :=
  if c.name == some "minorArcanaFreeCellBlocking" then
    match targetPile with
    | some tp =>
      if tp.ptype = "foundation" ∧ tp.index < 4 then
        (g.piles.filter (fun p => p.ptype == "freecell")).any
          (fun p => !p.cards.isEmpty)
      else false
    | none => false
  else GameRules.evaluateCustomBlockingCondition c g targetPile

/-- `FortunesFoundationRules.isValidFoundationMove(card, targetPile,
gameState)`: Minor-Arcana foundations (0-3) take minor cards ascending
from the Ace unless blocked; foundation 4 takes major cards ascending
from 0; foundation 5 takes major cards descending from 21. -/
def isValidFoundationMove (card : Card) (targetPile : Pile) (g : GameState) : Bool :=
  if targetPile.ptype != "foundation" then false
  else if targetPile.index < 4 then
    if card.isMinorArcana = false then false
    else if GameRules.isPileTypeBlocked getBlockingConditions
        evaluateCustomBlockingCondition "foundation" g (some targetPile) then false
    else
      match targetPile.getTopCard with
      | none => card.rank == 1
      | some topCard => (card.suit == topCard.suit) && (card.rank == topCard.rank + 1)
  else
    if card.isMajorArcana = false then false
    else
      match targetPile.getTopCard with
      | none => card.rank == (if targetPile.index = 4 then (0 : Int) else 21)
      | some topCard =>
        if targetPile.index = 4 then card.rank == topCard.rank + 1
        else card.rank == topCard.rank - 1

end FortunesFoundationRules
/-! ## Helper lemmas -/

lemma lt_length_of_get?_eq_some {α : Type} {l : List α} {n : Nat} {a : α}
    (h : l.get? n = some a) : n < l.length := by
  by_contra hn
  rw [List.get?_eq_none.mpr (Nat.le_of_not_lt hn)] at h
  exact Option.noConfusion h

lemma get?_set_self {α : Type} {l : List α} {i : Nat} (a : α) (h : i < l.length) :
    (l.set i a).get? i = some a := by
  obtain ⟨b, hb⟩ : ∃ b, l.get? i = some b := by
    cases hb : l.get? i with
    | none => rw [List.get?_eq_none] at hb; omega
    | some b => exact ⟨b, rfl⟩
  rw [List.get?_set, if_pos rfl, hb]
  rfl

lemma set_get?_same {α : Type} {l : List α} {i : Nat} {a : α}
    (h : l.get? i = some a) : l.set i a = l := by
  induction l generalizing i with
  | nil => simp at h
  | cons x xs ih =>
    cases i with
    | zero => simp at h; subst h; rfl
    | succ n =>
      simp only [List.get?_cons_succ] at h
      simp [ih h]

lemma sum_map_set {α : Type} (f : α → Nat) (l : List α) (i : Nat) (a b : α)
    (h : l.get? i = some b) :
    ((l.set i a).map f).sum + f b = (l.map f).sum + f a := by
  induction l generalizing i with
  | nil => simp at h
  | cons x xs ih =>
    cases i with
    | zero =>
      simp only [List.get?_cons_zero, Option.some_inj] at h
      subst h
      simp only [List.set_cons_zero, List.map_cons, List.sum_cons]
      omega
    | succ n =>
      simp only [List.get?_cons_succ] at h
      simp only [List.set_cons_succ, List.map_cons, List.sum_cons]
      have hih := ih n h
      omega

lemma findCardPileAux_spec (cid : Nat) (l : List Pile) :
    ∀ (i j : Nat) (p : Pile) (c : Card),
      findCardPileAux cid l i = some (j, p, c) →
      ∃ k, j = i + k ∧ l.get? k = some p ∧ c ∈ p.cards ∧ c.id = cid := by
  induction l with
  | nil => intro i j p c h; simp [findCardPileAux] at h
  | cons q qs ih =>
    intro i j p c h
    rw [findCardPileAux] at h
    cases hf : q.cards.find? (fun c => c.id == cid) with
    | some c0 =>
      rw [hf] at h
      simp only [Option.some_inj, Prod.mk.injEq] at h
      obtain ⟨h1, h2, h3⟩ := h
      refine ⟨0, by omega, ?_, ?_, ?_⟩
      · subst h2; rfl
      · subst h2 h3; exact List.mem_of_find?_eq_some hf
      · subst h3
        have := List.find?_some hf
        exact Nat.eq_of_beq_eq_true (by simpa using this)
    | none =>
      rw [hf] at h
      obtain ⟨k, hk, hget, hmem, hid⟩ := ih (i + 1) j p c h
      exact ⟨k + 1, by omega, by simpa using hget, hmem, hid⟩

lemma findCardPile_spec {g : GameState} {cid sIdx : Nat} {src : Pile} {c : Card}
    (h : g.findCardPile cid = some (sIdx, src, c)) :
    g.piles.get? sIdx = some src ∧ c ∈ src.cards ∧ c.id = cid := by
  obtain ⟨k, hk, hget, hmem, hid⟩ := findCardPileAux_spec cid g.piles 0 sIdx src c h
  exact ⟨by simpa [hk] using hget, hmem, hid⟩

lemma flipTopCardIfNeededAndRecord_fst_length (R : Rules) (p : Pile) :
    (Game.flipTopCardIfNeededAndRecord R p).1.cards.length = p.cards.length := by
  rw [Game.flipTopCardIfNeededAndRecord]
  split
  · rfl
  · split
    · split
      · rfl
      · next top hl =>
        have hne : p.cards ≠ [] := by
          intro h0; rw [h0] at hl; simp at hl
        split
        · simp only [List.length_append, List.length_dropLast, List.length_cons,
            List.length_nil]
          have := List.length_pos.mpr hne
          omega
        · rfl
    · rfl

lemma flipTopCardIfNeededAndRecord_fst_fields (R : Rules) (p : Pile) :
    (Game.flipTopCardIfNeededAndRecord R p).1.ptype = p.ptype ∧
    (Game.flipTopCardIfNeededAndRecord R p).1.index = p.index ∧
    (Game.flipTopCardIfNeededAndRecord R p).1.maxCards = p.maxCards := by
  rw [Game.flipTopCardIfNeededAndRecord]
  split
  · exact ⟨rfl, rfl, rfl⟩
  · split
    · split
      · exact ⟨rfl, rfl, rfl⟩
      · split
        · exact ⟨rfl, rfl, rfl⟩
        · exact ⟨rfl, rfl, rfl⟩
    · exact ⟨rfl, rfl, rfl⟩

lemma flip_cases (R : Rules)
    (Hflip : ∀ t fr, R.getCardFlippingRules t = some fr → fr.flipCondition ≠ "always")
    (p : Pile) :
    Game.flipTopCardIfNeededAndRecord R p = (p, none) ∨
    ∃ z, p.cards.getLast? = some z ∧ z.isFaceUp = false ∧
      Game.flipTopCardIfNeededAndRecord R p =
        ({ p with cards := p.cards.dropLast ++ [z.flip] }, some z.id) := by
  rw [Game.flipTopCardIfNeededAndRecord]
  split
  · left; rfl
  next fr hR =>
    split
    · split
      · left; rfl
      next z hl =>
        split
        next hcond =>
          right
          refine ⟨z, hl, ?_, rfl⟩
          cases hcond with
          | inl hh => exact hh.2
          | inr hh => exact absurd hh (Hflip _ _ hR)
        · left; rfl
    · left; rfl

lemma flip_noop_of_top_faceUp (R : Rules) (p : Pile) (z : Card)
    (Hflip : ∀ t fr, R.getCardFlippingRules t = some fr → fr.flipCondition ≠ "always")
    (hl : p.cards.getLast? = some z) (hz : z.isFaceUp = true) :
    Game.flipTopCardIfNeededAndRecord R p = (p, none) := by
  rcases flip_cases R Hflip p with h | ⟨z', hl', hz', _⟩
  · exact h
  · rw [hl] at hl'
    cases hl'
    rw [hz] at hz'
    exact absurd hz' (by simp)

/-! ## Claim theorems -/

/-- C1: for every game state and every `(card, targetPile)` such that the
card lies in some pile and the game's move validation (`Game.isValidMove`)
accepts the move, `Game.makeMove` returns `true`, and the total number of
cards summed across all piles is unchanged.  (The game's piles are created
by `createPiles` without a `maxCards` limit, which is the `hmax`
hypothesis.) -/
theorem makeMove_valid_true_conserves (R : Rules) (g : GameState)
    (cid tIdx : Nat) (target : Pile)
    (ht : g.piles.get? tIdx = some target)
    (hmax : ∀ p ∈ g.piles, p.maxCards = none)
    (hv : Game.isValidMove R g cid tIdx = true) :
    ∃ g', Game.makeMove R g cid tIdx = some (true, g') ∧
      g'.totalCards = g.totalCards := by
  cases hf : g.findCardPile cid with
  | none =>
    rw [Game.isValidMove, hf] at hv
    simp at hv
  | some trip =>
    obtain ⟨sIdx, src, c⟩ := trip
    obtain ⟨hs, hc, hcid⟩ := findCardPile_spec hf
    have hslt : sIdx < g.piles.length := lt_length_of_get?_eq_some hs
    have htlt : tIdx < g.piles.length := lt_length_of_get?_eq_some ht
    have hsrcne : src.cards ≠ [] := by intro h0; rw [h0] at hc; simp at hc
    obtain ⟨lastc, hlast⟩ : ∃ lc, src.cards.getLast? = some lc := by
      cases hl : src.cards.getLast? with
      | none => exact absurd (List.getLast?_eq_none_iff.mp hl) hsrcne
      | some lc => exact ⟨lc, rfl⟩
    rw [Game.makeMove, ht, hv]
    obtain ⟨target1, ht1⟩ : ∃ t1,
        (g.piles.set sIdx { src with cards := src.cards.dropLast }).get? tIdx = some t1 := by
      cases h1 : (g.piles.set sIdx { src with cards := src.cards.dropLast }).get? tIdx with
      | none => rw [List.get?_eq_none, List.length_set] at h1; omega
      | some t1 => exact ⟨t1, rfl⟩
    have ht1max : target1.maxCards = none := by
      rcases List.mem_or_eq_of_mem_set (List.get?_mem ht1) with hmem' | heq
      · exact hmax _ hmem'
      · rw [heq]; show src.maxCards = none; exact hmax _ (List.get?_mem hs)
    have hadd : target1.addCard c = some { target1 with cards := target1.cards ++ [c] } := by
      rw [Pile.addCard, ht1max]
    obtain ⟨source2, hs2⟩ : ∃ s2,
        ((g.piles.set sIdx { src with cards := src.cards.dropLast }).set tIdx
          { target1 with cards := target1.cards ++ [c] }).get? sIdx = some s2 := by
      cases h2 : ((g.piles.set sIdx { src with cards := src.cards.dropLast }).set tIdx
          { target1 with cards := target1.cards ++ [c] }).get? sIdx with
      | none => rw [List.get?_eq_none, List.length_set, List.length_set] at h2; omega
      | some s2 => exact ⟨s2, rfl⟩
    simp only [hf, Pile.removeTopCard, hlast, reduceIte, ht1, hadd, hs2]
    refine ⟨_, rfl, ?_⟩
    have e3 := sum_map_set (fun p => p.cards.length)
      ((g.piles.set sIdx { src with cards := src.cards.dropLast }).set tIdx
        { target1 with cards := target1.cards ++ [c] }) sIdx
      (Game.flipTopCardIfNeededAndRecord R source2).1 source2 hs2
    have e2 := sum_map_set (fun p => p.cards.length)
      (g.piles.set sIdx { src with cards := src.cards.dropLast }) tIdx
      { target1 with cards := target1.cards ++ [c] } target1 ht1
    have e1 := sum_map_set (fun p => p.cards.length) g.piles sIdx
      { src with cards := src.cards.dropLast } src hs
    have hflen := flipTopCardIfNeededAndRecord_fst_length R source2
    have hsrcpos : 0 < src.cards.length := List.length_pos.mpr hsrcne
    simp only [GameState.totalCards, List.length_append, List.length_dropLast,
      List.length_cons, List.length_nil] at e1 e2 e3 hflen ⊢
    omega

/-- Witness for C1 at a concrete Klondike position: moving the face-up
Ace of spades from a tableau pile onto the empty foundation. -/
def gW1 : GameState :=
  ⟨[⟨"foundation", 0, [], none⟩,
    ⟨"tableau", 0, [⟨5, "hearts", 2, false, none, none, false⟩,
                    ⟨1, "spades", 1, false, none, none, true⟩], none⟩],
   52, 0, [], true, false⟩

theorem makeMove_valid_true_conserves_witness :
    ∃ g', Game.makeMove klondikeRules gW1 1 0 = some (true, g') ∧
      g'.totalCards = gW1.totalCards :=
  makeMove_valid_true_conserves klondikeRules gW1 1 0 ⟨"foundation", 0, [], none⟩
    rfl (by decide) (by decide)

/-- C2: for every game state and every `(card, targetPile)` where the
game's move validation is false, `Game.makeMove` returns `false` and
performs no mutation at all: the returned state is the argument state, so
every pile's card sequence, every card's face state, the score and the
move history are unchanged. -/
theorem makeMove_invalid_false_unchanged (R : Rules) (g : GameState)
    (cid tIdx : Nat) (target : Pile)
    (ht : g.piles.get? tIdx = some target)
    (h : Game.isValidMove R g cid tIdx = false) :
    Game.makeMove R g cid tIdx = some (false, g) := by
  rw [Game.makeMove, ht, h]
  rfl

/-- Witness for C2: trying to move the face-down 2 of hearts (buried in
the tableau) is rejected by `isValidMove`, and `makeMove` returns the
state unchanged. -/
theorem makeMove_invalid_false_unchanged_witness :
    Game.isValidMove klondikeRules gW1 5 0 = false ∧
    Game.makeMove klondikeRules gW1 5 0 = some (false, gW1) :=
  ⟨by decide,
   makeMove_invalid_false_unchanged klondikeRules gW1 5 0 ⟨"foundation", 0, [], none⟩
     rfl (by decide)⟩

/-- C10: calling `undoMove` when the move history is empty returns
`false` and leaves the entire game state unchanged (the returned state is
the argument state). -/
theorem undoMove_empty_history_noop (R : Rules) (g : GameState)
    (h : g.moves = []) : Game.undoMove R g = some (false, g) := by
  rw [Game.undoMove, h]
  rfl

/-- Witness for C10 at a concrete state with an empty move log. -/
theorem undoMove_empty_history_noop_witness :
    gW1.moves = [] ∧ Game.undoMove klondikeRules gW1 = some (false, gW1) :=
  ⟨rfl, undoMove_empty_history_noop klondikeRules gW1 rfl⟩

/-- Number of the game's piles whose card sequence contains a card with
the given identity. -/
def GameState.pilesHoldingCard (g : GameState) (cid : Nat) : Nat :=
  (g.piles.filter (fun p => p.cards.any (fun c => c.id == cid))).length

/-- A reachable Klondike position: tableau 0 holds 7♣, Q♠, J♥ (all face
up, a legal descending run), tableau 1 holds K♥.  The Queen of spades
(id 2) is face up but not the top of its pile; the Jack of hearts is
id 3. -/
def g9 : GameState :=
  ⟨[⟨"tableau", 0, [⟨1, "clubs", 7, false, none, none, true⟩,
                    ⟨2, "spades", 12, false, none, none, true⟩,
                    ⟨3, "hearts", 11, false, none, none, true⟩], none⟩,
    ⟨"tableau", 1, [⟨4, "hearts", 13, false, none, none, true⟩], none⟩],
   52, 0, [], true, false⟩

/-- C9 (code bug): the single-ownership invariant is violated by
`Game.makeMove`.  Moving the face-up but buried Queen of spades onto the
K♥ tableau passes validation (`canCardBeMovedFromPile` only requires a
face-up tableau card, `isValidTableauMove` only checks the target), yet
`makeMove` pops the source pile's *top* card (the J♥, which vanishes from
every pile) while appending the Queen to the target, leaving the Queen's
card object in two piles at once.  Before the move each card is in
exactly one pile; after the returned-`true` move the Queen (id 2) is in
two piles and the Jack (id 3) in none. -/
theorem makeMove_duplicates_buried_card :
    g9.pilesHoldingCard 2 = 1 ∧ g9.pilesHoldingCard 3 = 1 ∧
    ((Game.makeMove klondikeRules g9 2 1).map
      (fun r => (r.1, r.2.pilesHoldingCard 2, r.2.pilesHoldingCard 3)))
      = some (true, 2, 0) := by
  refine ⟨by decide, by decide, by decide⟩

/-- The Sawayama free-cell blocking condition fires exactly when some
stock-typed pile is nonempty. -/
lemma sawayama_blocked_iff (g : GameState) (tp : Pile) :
    GameRules.isPileTypeBlocked SawayamaRules.getBlockingConditions
      GameRules.evaluateCustomBlockingCondition "freecell" g (some tp) = true ↔
    ∃ p ∈ g.piles, p.ptype = "stock" ∧ p.cards ≠ [] := by
  rw [GameRules.isPileTypeBlocked, SawayamaRules.getBlockingConditions]
  simp [GameRules.evaluateBlockingCondition, GameRules.checkPileNotEmpty,
    List.any_eq_true, List.mem_filter, List.isEmpty_iff]

/-- C6: in the Sawayama (hybrid) variant, a move into a free-cell pile is
rejected by `isValidFreeCellMove` whenever a stock pile holds at least one
card, and placing a card onto an empty free cell is legal exactly when
every stock pile is empty. -/
theorem sawayama_freecell_gated_by_stock (g : GameState) (card : Card) (targetPile : Pile) :
    ((∃ p ∈ g.piles, p.ptype = "stock" ∧ p.cards ≠ []) →
      SawayamaRules.isValidFreeCellMove card targetPile g = false)
    ∧ (targetPile.cards = [] →
      (SawayamaRules.isValidFreeCellMove card targetPile g = true ↔
        ∀ p ∈ g.piles, p.ptype = "stock" → p.cards = [])) := by
  constructor
  · intro hex
    rw [SawayamaRules.isValidFreeCellMove, if_pos ((sawayama_blocked_iff g targetPile).mpr hex)]
  · intro hempty
    rw [SawayamaRules.isValidFreeCellMove]
    by_cases hb : GameRules.isPileTypeBlocked SawayamaRules.getBlockingConditions
        GameRules.evaluateCustomBlockingCondition "freecell" g (some targetPile) = true
    · rw [if_pos hb]
      obtain ⟨p, hp, hty, hne⟩ := (sawayama_blocked_iff g targetPile).mp hb
      constructor
      · intro hfalse; simp at hfalse
      · intro hall; exact absurd (hall p hp hty) hne
    · rw [if_neg hb]
      have hforall : ∀ p ∈ g.piles, p.ptype = "stock" → p.cards = [] := by
        intro p hp hty
        by_contra hne
        exact hb ((sawayama_blocked_iff g targetPile).mpr ⟨p, hp, hty, hne⟩)
      simp only [hempty, List.isEmpty_nil, true_iff]
      exact hforall

/-- Witness for C6: with an empty stock pile, placing a card on the empty
free cell is legal. -/
def gW6 : GameState :=
  ⟨[⟨"stock", 0, [], none⟩, ⟨"freecell", 0, [], none⟩,
    ⟨"waste", 0, [⟨7, "clubs", 9, false, none, none, true⟩], none⟩],
   52, 0, [], true, false⟩

theorem sawayama_freecell_gated_by_stock_witness :
    SawayamaRules.isValidFreeCellMove ⟨7, "clubs", 9, false, none, none, true⟩
      ⟨"freecell", 0, [], none⟩ gW6 = true :=
  ((sawayama_freecell_gated_by_stock gW6 ⟨7, "clubs", 9, false, none, none, true⟩
      ⟨"freecell", 0, [], none⟩).2 rfl).mpr (by decide)

/-- C4: `checkWinCondition` is true iff every condition in the variant's
declared `getWinConditions()` list holds of the state (first conjunct:
the base interpreter, inherited by Klondike, Sawayama and Fortune's
Foundation); in particular, for the classic draw-pile (Klondike) variant
with its 4 foundation piles it is true iff all foundation piles contain
exactly 13 cards (second conjunct); FreeCell's overridden
`checkWinCondition` agrees with the interpreter applied to its declared
conditions (third conjunct). -/
theorem checkWinCondition_iff_all_conditions :
    (∀ (conds : List WinCondition) (custom : WinCondition → GameState → Bool) (g : GameState),
      GameRules.checkWinCondition conds custom g = true ↔
        ∀ c ∈ conds, GameRules.checkWinConditionType custom c g = true)
    ∧ (∀ g : GameState,
        (g.piles.filter (fun p => p.ptype == "foundation")).length = 4 →
        (KlondikeRules.checkWinCondition g = true ↔
          ∀ p ∈ g.piles, p.ptype = "foundation" → p.cards.length = 13))
    ∧ (∀ g : GameState, FreeCellRules.checkWinCondition g =
        GameRules.checkWinCondition FreeCellRules.getWinConditions
          GameRules.checkCustomWinCondition g) := by
  refine ⟨?_, ?_, ?_⟩
  · intro conds custom g
    rw [GameRules.checkWinCondition]
    exact List.all_eq_true
  · intro g h4
    rw [KlondikeRules.checkWinCondition, GameRules.checkWinCondition]
    simp [GameRules.checkWinConditionType, KlondikeRules.getWinConditions,
      GameRules.checkFoundationComplete, List.all_eq_true, List.mem_filter,
      imp_iff_not_or]
  · intro g
    rw [FreeCellRules.checkWinCondition, GameRules.checkWinCondition]
    simp [GameRules.checkWinConditionType, FreeCellRules.getWinConditions,
      GameRules.checkFoundationComplete]

/-- Witness for C4: a Klondike position with four complete foundations is
recognized as won. -/
def gW4 : GameState :=
  ⟨[⟨"foundation", 0, List.replicate 13 ⟨0, "spades", 1, false, none, none, true⟩, none⟩,
    ⟨"foundation", 1, List.replicate 13 ⟨1, "hearts", 1, false, none, none, true⟩, none⟩,
    ⟨"foundation", 2, List.replicate 13 ⟨2, "clubs", 1, false, none, none, true⟩, none⟩,
    ⟨"foundation", 3, List.replicate 13 ⟨3, "diamonds", 1, false, none, none, true⟩, none⟩],
   52, 0, [], true, false⟩

theorem checkWinCondition_iff_all_conditions_witness :
    KlondikeRules.checkWinCondition gW4 = true :=
  (checkWinCondition_iff_all_conditions.2.1 gW4 (by decide)).mpr (by decide)

/-- A valid descending alternating-color 6-card run (9♠ 8♥ 7♣ 6♦ 5♠ 4♥),
bottom first. -/
def run6 : List Card :=
  [⟨20, "spades", 9, false, none, none, true⟩,
   ⟨21, "hearts", 8, false, none, none, true⟩,
   ⟨22, "clubs", 7, false, none, none, true⟩,
   ⟨23, "diamonds", 6, false, none, none, true⟩,
   ⟨24, "spades", 5, false, none, none, true⟩,
   ⟨25, "hearts", 4, false, none, none, true⟩]

/-- A FreeCell position with all 4 free cells empty, tableau 0 empty and
tableaus 1-7 nonempty. -/
def gB : GameState :=
  ⟨[⟨"freecell", 0, [], none⟩, ⟨"freecell", 1, [], none⟩,
    ⟨"freecell", 2, [], none⟩, ⟨"freecell", 3, [], none⟩,
    ⟨"tableau", 0, [], none⟩,
    ⟨"tableau", 1, [⟨30, "clubs", 2, false, none, none, true⟩], none⟩,
    ⟨"tableau", 2, [⟨31, "clubs", 3, false, none, none, true⟩], none⟩,
    ⟨"tableau", 3, [⟨32, "clubs", 4, false, none, none, true⟩], none⟩,
    ⟨"tableau", 4, [⟨33, "hearts", 2, false, none, none, true⟩], none⟩,
    ⟨"tableau", 5, [⟨34, "hearts", 3, false, none, none, true⟩], none⟩,
    ⟨"tableau", 6, [⟨35, "hearts", 5, false, none, none, true⟩], none⟩,
    ⟨"tableau", 7, [⟨36, "spades", 2, false, none, none, true⟩], none⟩],
   52, 0, [], true, false⟩

/-- Counterexample to C5 as stated: with 4 empty free cells and every
*other* tableau pile nonempty, moving a valid 6-card run onto the empty
tableau pile is *accepted* by `canMoveStack`, because
`getMaxMoveableCards` counts the empty target pile itself, giving
`(4+1)*2^1 = 10`; the claim says a 6-card run is rejected under identical
conditions. -/
theorem canMoveStack_six_run_onto_empty_tableau_accepted :
    (gB.piles.filter (fun p => p.ptype == "freecell" && p.cards.isEmpty)).length = 4 ∧
    (gB.piles.filter (fun p => p.ptype == "tableau" && !p.cards.isEmpty)).length = 7 ∧
    ⟨"tableau", 0, [], none⟩ ∈ gB.piles ∧
    run6.length = 6 ∧
    (run6.zip run6.tail).all
      (fun pr => (pr.2.getSuitColor != pr.1.getSuitColor) &&
        (pr.2.rank == pr.1.rank - 1)) = true ∧
    FreeCellRules.getMaxMoveableCards gB = 10 ∧
    FreeCellRules.canMoveStack run6 ⟨"tableau", 0, [], none⟩ gB = some true := by
  decide

/-- C5 amended: in the free-cell variant, in any state with 4 empty free
cells and 0 empty tableau piles the maximum simultaneously-moveable run
length is 5, and for any run whose bottom card fits the target,
`canMoveStack` accepts it exactly when its length is at most 5 (so a
valid 5-card run is accepted and a 6-card run rejected); a run can only
target an *empty* tableau pile when the state has at least one empty
tableau pile, in which case the target itself is counted by
`getMaxMoveableCards` (see the counterexample, where the limit becomes
10). -/
theorem freecell_max_moveable_run (g : GameState)
    (hfc : (g.piles.filter (fun p => p.ptype == "freecell" && p.cards.isEmpty)).length = 4)
    (htab : (g.piles.filter (fun p => p.ptype == "tableau" && p.cards.isEmpty)).length = 0) :
    FreeCellRules.getMaxMoveableCards g = 5 ∧
    ∀ (bottom : Card) (rest : List Card) (targetPile : Pile),
      FreeCellRules.isValidTableauMove bottom targetPile = true →
      (FreeCellRules.canMoveStack (bottom :: rest) targetPile g = some true ↔
        (bottom :: rest).length ≤ 5) := by
  have hmax : FreeCellRules.getMaxMoveableCards g = 5 := by
    rw [FreeCellRules.getMaxMoveableCards]
    simp only [hfc, htab]
    norm_num
  refine ⟨hmax, ?_⟩
  intro bottom rest targetPile hvalid
  rw [FreeCellRules.canMoveStack, hvalid, hmax]
  simp

/-- The same position with tableau 0 holding a 10♥, so no tableau pile is
empty and the 9♠-run fits its top card. -/
def gB2 : GameState :=
  ⟨[⟨"freecell", 0, [], none⟩, ⟨"freecell", 1, [], none⟩,
    ⟨"freecell", 2, [], none⟩, ⟨"freecell", 3, [], none⟩,
    ⟨"tableau", 0, [⟨40, "hearts", 10, false, none, none, true⟩], none⟩,
    ⟨"tableau", 1, [⟨30, "clubs", 2, false, none, none, true⟩], none⟩,
    ⟨"tableau", 2, [⟨31, "clubs", 3, false, none, none, true⟩], none⟩,
    ⟨"tableau", 3, [⟨32, "clubs", 4, false, none, none, true⟩], none⟩,
    ⟨"tableau", 4, [⟨33, "hearts", 2, false, none, none, true⟩], none⟩,
    ⟨"tableau", 5, [⟨34, "hearts", 3, false, none, none, true⟩], none⟩,
    ⟨"tableau", 6, [⟨35, "hearts", 5, false, none, none, true⟩], none⟩,
    ⟨"tableau", 7, [⟨36, "spades", 2, false, none, none, true⟩], none⟩],
   52, 0, [], true, false⟩

/-- Witness for the amended C5: in `gB2` (4 empty free cells, no empty
tableau pile) the valid 5-card run is accepted and the 6-card run is
rejected. -/
theorem freecell_max_moveable_run_witness :
    FreeCellRules.canMoveStack (run6.take 5)
      ⟨"tableau", 0, [⟨40, "hearts", 10, false, none, none, true⟩], none⟩ gB2 = some true ∧
    ¬ FreeCellRules.canMoveStack run6
      ⟨"tableau", 0, [⟨40, "hearts", 10, false, none, none, true⟩], none⟩ gB2 = some true := by
  have h := freecell_max_moveable_run gB2 (by decide) (by decide)
  constructor
  · exact (h.2 ⟨20, "spades", 9, false, none, none, true⟩
      [⟨21, "hearts", 8, false, none, none, true⟩,
       ⟨22, "clubs", 7, false, none, none, true⟩,
       ⟨23, "diamonds", 6, false, none, none, true⟩,
       ⟨24, "spades", 5, false, none, none, true⟩]
      ⟨"tableau", 0, [⟨40, "hearts", 10, false, none, none, true⟩], none⟩ (by decide)).mpr
      (by decide)
  · intro hc
    have hlen := (h.2 ⟨20, "spades", 9, false, none, none, true⟩
      [⟨21, "hearts", 8, false, none, none, true⟩,
       ⟨22, "clubs", 7, false, none, none, true⟩,
       ⟨23, "diamonds", 6, false, none, none, true⟩,
       ⟨24, "spades", 5, false, none, none, true⟩,
       ⟨25, "hearts", 4, false, none, none, true⟩]
      ⟨"tableau", 0, [⟨40, "hearts", 10, false, none, none, true⟩], none⟩ (by decide)).mp hc
    simp at hlen

/-- Fortune's Foundation's custom blocking condition fires exactly for
Minor-Arcana foundation targets (index < 4) while some free cell holds a
card. -/
lemma ff_blocked_iff (g : GameState) (tp : Pile) :
    GameRules.isPileTypeBlocked FortunesFoundationRules.getBlockingConditions
      FortunesFoundationRules.evaluateCustomBlockingCondition "foundation" g (some tp) = true ↔
    (tp.ptype = "foundation" ∧ tp.index < 4 ∧
      ∃ p ∈ g.piles, p.ptype = "freecell" ∧ p.cards ≠ []) := by
  rw [GameRules.isPileTypeBlocked, FortunesFoundationRules.getBlockingConditions]
  simp [GameRules.evaluateBlockingCondition,
    FortunesFoundationRules.evaluateCustomBlockingCondition,
    List.any_eq_true, List.mem_filter, List.isEmpty_iff, and_assoc]

/-- C7: in the Fortune's Foundation (large tarot-deck) variant,
`isValidFoundationMove` accepts a rank-1 minor-arcana card onto an empty
minor-arcana foundation (index 0-3) exactly when every free cell is empty;
the major-arcana foundation at index 4 accepts, when empty, exactly a
major-arcana card of rank 0 and thereafter exactly rank `top + 1`; the
foundation at index 5 accepts, when empty, exactly a major-arcana card of
rank 21 and thereafter exactly rank `top - 1`. -/
theorem ff_foundation_move_characterization (g : GameState) (card : Card) (targetPile : Pile)
    (hty : targetPile.ptype = "foundation") :
    (targetPile.index < 4 → targetPile.cards = [] → card.isMinorArcana = true → card.rank = 1 →
      (FortunesFoundationRules.isValidFoundationMove card targetPile g = true ↔
        ∀ p ∈ g.piles, p.ptype = "freecell" → p.cards = []))
    ∧ (targetPile.index = 4 → targetPile.cards = [] →
      (FortunesFoundationRules.isValidFoundationMove card targetPile g = true ↔
        card.isMajorArcana = true ∧ card.rank = 0))
    ∧ (∀ topCard, targetPile.index = 4 → targetPile.getTopCard = some topCard →
      (FortunesFoundationRules.isValidFoundationMove card targetPile g = true ↔
        card.isMajorArcana = true ∧ card.rank = topCard.rank + 1))
    ∧ (targetPile.index = 5 → targetPile.cards = [] →
      (FortunesFoundationRules.isValidFoundationMove card targetPile g = true ↔
        card.isMajorArcana = true ∧ card.rank = 21))
    ∧ (∀ topCard, targetPile.index = 5 → targetPile.getTopCard = some topCard →
      (FortunesFoundationRules.isValidFoundationMove card targetPile g = true ↔
        card.isMajorArcana = true ∧ card.rank = topCard.rank - 1)) := by
  have hne : (targetPile.ptype != "foundation") = false := by simp [hty]
  refine ⟨?_, ?_, ?_, ?_, ?_⟩
  · intro hidx hempty hminor hrank
    rw [FortunesFoundationRules.isValidFoundationMove]
    have h2 : targetPile.getTopCard = none := by rw [Pile.getTopCard, hempty]; rfl
    by_cases hb : GameRules.isPileTypeBlocked FortunesFoundationRules.getBlockingConditions
        FortunesFoundationRules.evaluateCustomBlockingCondition "foundation" g
        (some targetPile) = true
    · obtain ⟨-, -, p, hp, hfc, hnemp⟩ := (ff_blocked_iff g targetPile).mp hb
      simp only [hne, Bool.false_eq_true, if_false, if_pos hidx, hminor, hb, if_true]
      constructor
      · intro hfalse; simp at hfalse
      · intro hall; exact absurd (hall p hp hfc) hnemp
    · have hnb : GameRules.isPileTypeBlocked FortunesFoundationRules.getBlockingConditions
          FortunesFoundationRules.evaluateCustomBlockingCondition "foundation" g
          (some targetPile) = false := by
        cases hx : GameRules.isPileTypeBlocked FortunesFoundationRules.getBlockingConditions
            FortunesFoundationRules.evaluateCustomBlockingCondition "foundation" g
            (some targetPile)
        · rfl
        · exact absurd hx hb
      simp only [hne, Bool.false_eq_true, if_false, if_pos hidx, hminor, hnb, h2, hrank]
      constructor
      · intro _ p hp hfc
        by_contra hnemp
        exact hb ((ff_blocked_iff g targetPile).mpr ⟨hty, hidx, p, hp, hfc, hnemp⟩)
      · intro _; decide
  · intro hidx hempty
    rw [FortunesFoundationRules.isValidFoundationMove]
    have h2 : targetPile.getTopCard = none := by rw [Pile.getTopCard, hempty]; rfl
    cases hmaj : card.isMajorArcana with
    | false => simp [hne, hidx, h2, hmaj]
    | true => simp [hne, hidx, h2, hmaj]
  · intro topCard hidx htop
    rw [FortunesFoundationRules.isValidFoundationMove]
    cases hmaj : card.isMajorArcana with
    | false => simp [hne, hidx, htop, hmaj]
    | true => simp [hne, hidx, htop, hmaj]
  · intro hidx hempty
    rw [FortunesFoundationRules.isValidFoundationMove]
    have h2 : targetPile.getTopCard = none := by rw [Pile.getTopCard, hempty]; rfl
    cases hmaj : card.isMajorArcana with
    | false => simp [hne, hidx, h2, hmaj]
    | true => simp [hne, hidx, h2, hmaj]
  · intro topCard hidx htop
    rw [FortunesFoundationRules.isValidFoundationMove]
    cases hmaj : card.isMajorArcana with
    | false => simp [hne, hidx, htop, hmaj]
    | true => simp [hne, hidx, htop, hmaj]

/-- Witness for C7: an ace of wands (minor arcana) may be placed on the
empty minor foundation 0 while the single free cell is empty. -/
def gW7 : GameState :=
  ⟨[⟨"foundation", 0, [], none⟩, ⟨"foundation", 4, [], none⟩,
    ⟨"freecell", 0, [], none⟩], 74, 0, [], true, false⟩

theorem ff_foundation_move_characterization_witness :
    FortunesFoundationRules.isValidFoundationMove
      ⟨50, "wands", 1, false, some "minor", none, true⟩
      ⟨"foundation", 0, [], none⟩ gW7 = true :=
  ((ff_foundation_move_characterization gW7
      ⟨50, "wands", 1, false, some "minor", none, true⟩
      ⟨"foundation", 0, [], none⟩ rfl).1
    (by decide) rfl (by decide) rfl).mpr (by decide)

/-- C8: the declarative interpreters treat unrecognized strings as
"condition not met": a blocking condition with an unrecognized type
evaluates false (so a pile-type whose conditions are all unrecognized is
never blocked — fail-open), a win condition with an unrecognized type
evaluates false (so a variant declaring one can never report the game as
won — fail-closed), and a card-count comparison with an unrecognized
operator is false. -/
theorem unrecognized_condition_strings_fail_closed :
    (∀ (custom : BlockCondition → GameState → Option Pile → Bool) (c : BlockCondition)
        (g : GameState) (t : Option Pile),
      c.btype ≠ "pileNotEmpty" → c.btype ≠ "pileEmpty" → c.btype ≠ "pileCardCount" →
      c.btype ≠ "custom" →
      GameRules.evaluateBlockingCondition custom c g t = false)
    ∧ (∀ (getBC : String → Option (List BlockCondition))
        (custom : BlockCondition → GameState → Option Pile → Bool)
        (pt : String) (g : GameState) (t : Option Pile) (conds : List BlockCondition),
        getBC pt = some conds →
        (∀ c ∈ conds, c.btype ≠ "pileNotEmpty" ∧ c.btype ≠ "pileEmpty" ∧
          c.btype ≠ "pileCardCount" ∧ c.btype ≠ "custom") →
        GameRules.isPileTypeBlocked getBC custom pt g t = false)
    ∧ (∀ (custom : WinCondition → GameState → Bool) (c : WinCondition) (g : GameState),
        c.wtype ≠ "foundationComplete" → c.wtype ≠ "tableauEmpty" →
        c.wtype ≠ "allCardsInFoundation" → c.wtype ≠ "custom" →
        GameRules.checkWinConditionType custom c g = false)
    ∧ (∀ (conds : List WinCondition) (custom : WinCondition → GameState → Bool)
        (g : GameState) (c : WinCondition), c ∈ conds →
        c.wtype ≠ "foundationComplete" → c.wtype ≠ "tableauEmpty" →
        c.wtype ≠ "allCardsInFoundation" → c.wtype ≠ "custom" →
        GameRules.checkWinCondition conds custom g = false)
    ∧ (∀ (a : Int) (op : String) (e : Option Int),
        op ≠ "=" → op ≠ "==" → op ≠ "!=" → op ≠ "<>" → op ≠ "<" → op ≠ "<=" →
        op ≠ ">" → op ≠ ">=" →
        GameRules.compareCardCount a (some op) e = false) := by
  have hblock : ∀ (custom : BlockCondition → GameState → Option Pile → Bool)
      (c : BlockCondition) (g : GameState) (t : Option Pile),
      c.btype ≠ "pileNotEmpty" → c.btype ≠ "pileEmpty" → c.btype ≠ "pileCardCount" →
      c.btype ≠ "custom" →
      GameRules.evaluateBlockingCondition custom c g t = false := by
    intro custom c g t h1 h2 h3 h4
    rw [GameRules.evaluateBlockingCondition]
    simp [h1, h2, h3, h4]
  have hwin : ∀ (custom : WinCondition → GameState → Bool) (c : WinCondition)
      (g : GameState),
      c.wtype ≠ "foundationComplete" → c.wtype ≠ "tableauEmpty" →
      c.wtype ≠ "allCardsInFoundation" → c.wtype ≠ "custom" →
      GameRules.checkWinConditionType custom c g = false := by
    intro custom c g h1 h2 h3 h4
    rw [GameRules.checkWinConditionType]
    simp [h1, h2, h3, h4]
  refine ⟨hblock, ?_, hwin, ?_, ?_⟩
  · intro getBC custom pt g t conds hBC hall
    rw [GameRules.isPileTypeBlocked, hBC]
    rw [List.any_eq_false]
    intro c hc
    obtain ⟨h1, h2, h3, h4⟩ := hall c hc
    simp [hblock custom c g t h1 h2 h3 h4]
  · intro conds custom g c hc h1 h2 h3 h4
    rw [GameRules.checkWinCondition]
    rw [List.all_eq_false]
    exact ⟨c, hc, by simp [hwin custom c g h1 h2 h3 h4]⟩
  · intro a op e h1 h2 h3 h4 h5 h6 h7 h8
    rw [GameRules.compareCardCount.eq_def]
    simp [h1, h2, h3, h4, h5, h6, h7, h8]

/-- Witness for C8 with concrete unrecognized strings. -/
theorem unrecognized_condition_strings_fail_closed_witness :
    GameRules.evaluateBlockingCondition (fun _ _ _ => true)
      ⟨"bogusBlock", some "stock", none, none, none, none⟩ gW1 none = false ∧
    GameRules.isPileTypeBlocked
      (fun _ => some [⟨"bogusBlock", some "stock", none, none, none, none⟩])
      (fun _ _ _ => true) "freecell" gW1 none = false ∧
    GameRules.checkWinConditionType (fun _ _ => true) ⟨"bogusWin", none, none, none⟩
      gW4 = false ∧
    GameRules.checkWinCondition [⟨"bogusWin", none, none, none⟩] (fun _ _ => true)
      gW4 = false ∧
    GameRules.compareCardCount 3 (some "bogusOp") (some 3) = false := by
  refine ⟨?_, ?_, ?_, ?_, ?_⟩
  · exact unrecognized_condition_strings_fail_closed.1 _ _ _ _
      (by decide) (by decide) (by decide) (by decide)
  · exact unrecognized_condition_strings_fail_closed.2.1 _ _ _ _ _ _ rfl
      (by intro c hc; simp at hc; subst hc; exact
        ⟨by decide, by decide, by decide, by decide⟩)
  · exact unrecognized_condition_strings_fail_closed.2.2.1 _ _ _
      (by decide) (by decide) (by decide) (by decide)
  · exact unrecognized_condition_strings_fail_closed.2.2.2.1
      [⟨"bogusWin", none, none, none⟩] (fun _ _ => true) gW4
      ⟨"bogusWin", none, none, none⟩
      (by simp) (by decide) (by decide) (by decide) (by decide)
  · exact unrecognized_condition_strings_fail_closed.2.2.2.2 _ _ _
      (by decide) (by decide) (by decide) (by decide) (by decide) (by decide)
      (by decide) (by decide)

/-- `Pile.removeTops` pops exactly the pile's top segment: on a pile whose
cards split as `A ++ B`, removing `B.length` cards leaves `A`. -/
lemma removeTops_eq (A B : List Card) :
    ∀ (p : Pile), p.cards = A ++ B → p.removeTops B.length = some { p with cards := A } := by
  induction B using List.reverseRecOn with
  | nil =>
    intro p h
    rw [List.append_nil] at h
    rw [List.length_nil, Pile.removeTops, ← h]
  | append_singleton B' b ih =>
    intro p h
    rw [List.length_append, List.length_cons, List.length_nil, Pile.removeTops]
    have hl : p.cards.getLast? = some b := by
      rw [h, ← List.append_assoc, List.getLast?_concat]
    have hd : p.cards.dropLast = A ++ B' := by
      rw [h, ← List.append_assoc, List.dropLast_concat]
    rw [Pile.removeTopCard, hl]
    simp only [hd]
    exact ih { p with cards := A ++ B' } rfl

/-- `Pile.addAll` on a pile without a `maxCards` limit appends the whole
list and never throws. -/
lemma addAll_no_max (l : List Card) :
    ∀ (p : Pile), p.maxCards = none →
      p.addAll l = some { p with cards := p.cards ++ l } := by
  induction l with
  | nil => intro p h; rw [Pile.addAll, List.append_nil]
  | cons c cs ih =>
    intro p h
    rw [Pile.addAll]
    have hadd : p.addCard c = some { p with cards := p.cards ++ [c] } := by
      rw [Pile.addCard, h]
    simp only [hadd]
    rw [ih { p with cards := p.cards ++ [c] } h]
    simp [List.append_assoc]

/-- The per-pile action of `Game.flipCardById`. -/
def pileFlipById (p : Pile) (fid : Nat) : Pile :=
  { p with cards := p.cards.map (fun c => if c.id == fid then c.flip else c) }

lemma flipCardById_eq_map (piles : List Pile) (fid : Nat) :
    Game.flipCardById piles fid = piles.map (fun p => pileFlipById p fid) := rfl

lemma pileFlipById_noop (p : Pile) (fid : Nat) (h : ∀ c ∈ p.cards, c.id ≠ fid) :
    pileFlipById p fid = p := by
  rw [pileFlipById]
  have hmap : p.cards.map (fun c => if c.id == fid then c.flip else c) = p.cards := by
    conv_rhs => rw [← List.map_id p.cards]
    apply List.map_congr_left
    intro c hc
    simp [h c hc]
  rw [hmap]

/-- The identities of all cards held by the piles, in order. -/
def pilesCardIds (piles : List Pile) : List Nat :=
  (piles.map (fun p => p.cards.map Card.id)).flatten

lemma pilesCardIds_nodup_within {piles : List Pile} (hnd : (pilesCardIds piles).Nodup)
    {p : Pile} (hp : p ∈ piles) : (p.cards.map Card.id).Nodup :=
  (List.nodup_flatten.mp hnd).1 _ (List.mem_map_of_mem _ hp)

lemma pilesCardIds_disjoint {piles : List Pile} (hnd : (pilesCardIds piles).Nodup)
    {i j : Nat} (hij : i ≠ j) {p q : Pile}
    (hp : piles.get? i = some p) (hq : piles.get? j = some q)
    {c : Card} (hc : c ∈ p.cards) {d : Card} (hd : d ∈ q.cards) :
    c.id ≠ d.id := by
  have hpair := (List.nodup_flatten.mp hnd).2
  rw [List.pairwise_iff_getElem] at hpair
  have hip : i < piles.length := lt_length_of_get?_eq_some hp
  have hjq : j < piles.length := lt_length_of_get?_eq_some hq
  have hpi : piles[i] = p := by
    rw [List.get?_eq_getElem?] at hp
    obtain ⟨h', hv⟩ := List.getElem?_eq_some_iff.mp hp
    exact hv
  have hqj : piles[j] = q := by
    rw [List.get?_eq_getElem?] at hq
    obtain ⟨h', hv⟩ := List.getElem?_eq_some_iff.mp hq
    exact hv
  have hlen : piles.length = (piles.map (fun p => p.cards.map Card.id)).length := by
    simp
  intro heq
  rcases Nat.lt_or_ge i j with hlt | hge
  · have hdis := hpair i j (by omega) (by omega) hlt
    rw [List.getElem_map, List.getElem_map, hpi, hqj] at hdis
    exact hdis (List.mem_map_of_mem _ hc) (heq ▸ List.mem_map_of_mem _ hd)
  · have hlt' : j < i := by omega
    have hdis := hpair j i (by omega) (by omega) hlt'
    rw [List.getElem_map, List.getElem_map, hpi, hqj] at hdis
    exact hdis (List.mem_map_of_mem _ hd) (heq ▸ List.mem_map_of_mem _ hc)

/-- C3 (amended): `Game.undoMove` immediately after a successful
`Game.makeMove` or `Game.makeStackMove` restores every pile's card
sequence (hence every card's face-up flag), the score and the move log to
their exact pre-move values, **provided the move took the face-up top of
its source pile** — for `makeMove`, the moved card is the source pile's
top card and is face up; for `makeStackMove`, the recorded stack is the
source pile's actual top run (bottom to top) and its topmost card is face
up.  The rule set must record full move data (the base
`getMoveRecordingConfig`), score a move by the target pile's type only
(true of the base scoring table every variant inherits), and have no
`'always'` flip condition (true of the base flipping rules); the state's
piles carry no `maxCards` limit and hold globally distinct card
identities, as every `createPiles`/`createDeck` state does.  Without the
face-up-top proviso the claim is false: undoing a face-down move leaves
the card face up (see the counterexample). -/
theorem undo_restores_topcard_moves (R : Rules) (g : GameState)
    (hmc : R.getMoveRecordingConfig = GameRules.baseMoveRecordingConfig)
    (Hscore : ∀ c₁ p₁ s₁ c₂ p₂ s₂, p₁.ptype = p₂.ptype →
      R.getMoveScore c₁ p₁ s₁ = R.getMoveScore c₂ p₂ s₂)
    (Hflip : ∀ t fr, R.getCardFlippingRules t = some fr → fr.flipCondition ≠ "always")
    (hmax : ∀ p ∈ g.piles, p.maxCards = none)
    (hnd : (pilesCardIds g.piles).Nodup) :
    (∀ (cid tIdx sIdx : Nat) (src : Pile) (c : Card) (g1 : GameState),
      g.findCardPile cid = some (sIdx, src, c) →
      src.cards.getLast? = some c →
      c.isFaceUp = true →
      Game.makeMove R g cid tIdx = some (true, g1) →
      ∃ g2, Game.undoMove R g1 = some (true, g2) ∧
        g2.piles = g.piles ∧ g2.score = g.score ∧ g2.moves = g.moves) ∧
    (∀ (cid tIdx sIdx : Nat) (src : Pile) (card cτ : Card) (stack A : List Card)
        (g1 : GameState),
      g.findCardPile cid = some (sIdx, src, card) →
      src.cards = A ++ stack →
      stack ≠ [] →
      stack.getLast? = some cτ →
      cτ.isFaceUp = true →
      Game.makeStackMove R g cid tIdx stack = some (true, g1) →
      ∃ g2, Game.undoMove R g1 = some (true, g2) ∧
        g2.piles = g.piles ∧ g2.score = g.score ∧ g2.moves = g.moves) := by
  constructor
  · intro cid tIdx sIdx src c g1 hf htop hface h4
    obtain ⟨hs, hc, hcid⟩ := findCardPile_spec hf
    have hslt : sIdx < g.piles.length := lt_length_of_get?_eq_some hs
    have hsm : src.maxCards = none := hmax _ (List.get?_mem hs)
    have hsne : src.cards ≠ [] := by intro h0; rw [h0] at hc; simp at hc
    have hD : src.cards.dropLast ++ [c] = src.cards := by
      have h1 := List.dropLast_append_getLast hsne
      have h2 := List.getLast?_eq_getLast src.cards hsne
      rw [h2, Option.some_inj] at htop
      rw [htop] at h1
      exact h1
    cases ht' : g.piles.get? tIdx with
    | none => rw [Game.makeMove, ht'] at h4; exact absurd h4 (by simp)
    | some target =>
    have htlt : tIdx < g.piles.length := lt_length_of_get?_eq_some ht'
    have hv : Game.isValidMove R g cid tIdx = true := by
      cases hvv : Game.isValidMove R g cid tIdx
      · rw [Game.makeMove, ht', hvv] at h4; simp at h4
      · rfl
    rw [Game.makeMove, ht', hv] at h4
    by_cases hst : sIdx = tIdx
    · subst hst
      have htgt : src = target := by rw [hs] at ht'; exact Option.some_inj.mp ht'
      subst htgt
      have hstep1 : (g.piles.set sIdx { src with cards := src.cards.dropLast }).get? sIdx
          = some { src with cards := src.cards.dropLast } :=
        get?_set_self _ hslt
      have haddA : ({ src with cards := src.cards.dropLast } : Pile).addCard c
          = some { src with cards := src.cards.dropLast ++ [c] } := by
        rw [Pile.addCard]
        simp only [hsm]
      have hstep2 : ((g.piles.set sIdx { src with cards := src.cards.dropLast }).set sIdx
          { src with cards := src.cards.dropLast ++ [c] }).get? sIdx
          = some { src with cards := src.cards.dropLast ++ [c] } :=
        get?_set_self _ (by rw [List.length_set]; exact hslt)
      have hfpA : Game.flipTopCardIfNeededAndRecord R { src with cards := src.cards.dropLast ++ [c] }
          = ({ src with cards := src.cards.dropLast ++ [c] }, none) :=
        flip_noop_of_top_faceUp R _ c Hflip (by rw [List.getLast?_concat]) hface
      simp only [reduceIte, hf, Pile.removeTopCard, htop, haddA, hstep1, hstep2, hfpA] at h4
      have hetasrc : (⟨src.ptype, src.index, src.cards, src.maxCards⟩ : Pile) = src := rfl
      simp only [Bool.true_eq_false, if_false, List.set_set, hD, hetasrc,
        set_get?_same hs, hmc, GameRules.baseMoveRecordingConfig, reduceIte] at h4
      have hetag : (⟨g.piles, g.cardsCount, g.score, g.moves, g.gameStarted, g.gameWon⟩
          : GameState) = g := rfl
      simp only [hetag] at h4
      simp only [Option.some_inj, Prod.mk.injEq, true_and] at h4
      subst h4
      rw [Game.undoMove]
      simp only [List.getLast?_concat, List.dropLast_concat, hs, Pile.removeTopCard, htop,
        hstep1, haddA, hstep2, List.isEmpty_nil]
      have hSall : ∀ (s' : GameState) (p' : Pile), p'.ptype = src.ptype →
          R.getMoveScore c p' s' = R.getMoveScore c src g :=
        fun s' p' hp => Hscore c p' s' c src g hp
      have hfpA' : Game.flipTopCardIfNeededAndRecord R src = (src, none) :=
        flip_noop_of_top_faceUp R src c Hflip htop hface
      simp only [Game.flipTopCardIfNeeded, hfpA, hfpA', List.set_set, hD, hetasrc,
        set_get?_same hs, hSall, add_sub_cancel_right]
      exact ⟨_, rfl, rfl, rfl, rfl⟩
    · -- sIdx ≠ tIdx
      have htm : target.maxCards = none := hmax _ (List.get?_mem ht')
      have hstep1 : (g.piles.set sIdx { src with cards := src.cards.dropLast }).get? tIdx
          = some target := by
        rw [List.get?_set_ne _ _ hst]; exact ht'
      have haddB : target.addCard c = some { target with cards := target.cards ++ [c] } := by
        rw [Pile.addCard, htm]
      have hstep2 : ((g.piles.set sIdx { src with cards := src.cards.dropLast }).set tIdx
          { target with cards := target.cards ++ [c] }).get? sIdx
          = some { src with cards := src.cards.dropLast } := by
        rw [List.get?_set_ne _ _ (Ne.symm hst)]
        exact get?_set_self _ hslt
      simp only [reduceIte, Bool.true_eq_false, if_false, hf, Pile.removeTopCard, htop,
        hstep1, haddB, hstep2] at h4
      rcases flip_cases R Hflip { src with cards := src.cards.dropLast } with hfp | ⟨z, hzl, hzdown, hfp⟩
      · -- no flip recorded
        have hsetsame : ((g.piles.set sIdx { src with cards := src.cards.dropLast }).set tIdx
            { target with cards := target.cards ++ [c] }).set sIdx
            { src with cards := src.cards.dropLast }
            = (g.piles.set sIdx { src with cards := src.cards.dropLast }).set tIdx
              { target with cards := target.cards ++ [c] } := set_get?_same hstep2
        simp only [hfp, hsetsame, hmc, GameRules.baseMoveRecordingConfig, reduceIte] at h4
        simp only [Option.some_inj, Prod.mk.injEq, true_and] at h4
        subst h4
        rw [Game.undoMove]
        have hstepU1 : ((g.piles.set sIdx { src with cards := src.cards.dropLast }).set tIdx
            { target with cards := target.cards ++ [c] }).get? tIdx
            = some { target with cards := target.cards ++ [c] } :=
          get?_set_self _ (by rw [List.length_set]; exact htlt)
        have hetatgt : (⟨target.ptype, target.index, target.cards, target.maxCards⟩ : Pile)
            = target := rfl
        have hstepU2 : ((g.piles.set sIdx
            { src with cards := src.cards.dropLast }).set tIdx target).get? sIdx
            = some { src with cards := src.cards.dropLast } := by
          rw [List.get?_set_ne _ _ (Ne.symm hst)]
          exact get?_set_self _ hslt
        have hadd0 : ({ src with cards := src.cards.dropLast } : Pile).addCard c
            = some { src with cards := src.cards.dropLast ++ [c] } := by
          rw [Pile.addCard]
          simp only [hsm]
        have hstepU3 : (((g.piles.set sIdx { src with cards := src.cards.dropLast }).set tIdx
            target).set sIdx { src with cards := src.cards.dropLast ++ [c] }).get? tIdx
            = some target := by
          rw [List.get?_set_ne _ _ hst]
          exact get?_set_self _ (by rw [List.length_set]; exact htlt)
        have hstepU4 : (((g.piles.set sIdx { src with cards := src.cards.dropLast }).set tIdx
            target).set sIdx { src with cards := src.cards.dropLast ++ [c] }).get? sIdx
            = some { src with cards := src.cards.dropLast ++ [c] } :=
          get?_set_self _ (by rw [List.length_set, List.length_set]; exact hslt)
        have hfpN : Game.flipTopCardIfNeededAndRecord R
            { src with cards := src.cards.dropLast ++ [c] }
            = ({ src with cards := src.cards.dropLast ++ [c] }, none) :=
          flip_noop_of_top_faceUp R _ c Hflip (by rw [List.getLast?_concat]) hface
        have hSallB : ∀ (s' : GameState) (p' : Pile), p'.ptype = target.ptype →
            R.getMoveScore c p' s' = R.getMoveScore c target g :=
          fun s' p' hp => Hscore c p' s' c target g hp
        have hetasrc : (⟨src.ptype, src.index, src.cards, src.maxCards⟩ : Pile) = src := rfl
        have hfinal : ((g.piles.set sIdx { src with cards := src.cards.dropLast }).set tIdx
            target).set sIdx src = g.piles := by
          rw [List.set_comm _ _ _ (Ne.symm hst), List.set_set, set_get?_same hs,
            set_get?_same ht']
        simp only [List.getLast?_concat, List.dropLast_concat, Pile.removeTopCard,
          hstepU1, hetatgt, List.set_set, hstepU2, hadd0, hstepU3, hstepU4,
          Game.flipTopCardIfNeeded, hfpN]
        simp only [List.set_set, hD, hetasrc, hfinal, hSallB, add_sub_cancel_right]
        exact ⟨_, rfl, rfl, rfl, rfl⟩
      · -- a face-down card was flipped on the source pile; undo flips it back
        have hzl' : src.cards.dropLast.getLast? = some z := hzl
        have hfp' : Game.flipTopCardIfNeededAndRecord R { src with cards := src.cards.dropLast }
            = ({ src with cards := src.cards.dropLast.dropLast ++ [z.flip] }, some z.id) := hfp
        have hdne : src.cards.dropLast ≠ [] := by
          intro h0; rw [h0] at hzl'; simp at hzl'
        have hE : src.cards.dropLast.dropLast ++ [z] = src.cards.dropLast := by
          have h1 := List.dropLast_append_getLast hdne
          have h2 := List.getLast?_eq_getLast _ hdne
          have h3 := hzl'
          rw [h2, Option.some_inj] at h3
          rw [h3] at h1
          exact h1
        have hSC : src.cards = src.cards.dropLast.dropLast ++ [z] ++ [c] := by
          rw [hE, hD]
        have hndsrc : (src.cards.map Card.id).Nodup :=
          pilesCardIds_nodup_within hnd (List.get?_mem hs)
        rw [hSC] at hndsrc
        simp only [List.map_append, List.map_cons, List.map_nil, List.nodup_append,
          List.disjoint_left] at hndsrc
        have hEz : ∀ e ∈ src.cards.dropLast.dropLast, e.id ≠ z.id := by
          intro e he
          exact fun h0 => hndsrc.1.2.2 (List.mem_map_of_mem _ he) (by simp [h0])
        have hcz : c.id ≠ z.id := by
          intro h0
          have hz_in : z.id ∈ src.cards.dropLast.dropLast.map Card.id ++ [z.id] := by simp
          exact hndsrc.2.2 hz_in (by simp [h0])
        have hflipid : z.flip.id = z.id := rfl
        have hflipflip : z.flip.flip = z := by
          cases z; simp [Card.flip, Bool.not_not]
        have hzmem : z ∈ src.cards := by rw [hSC]; simp
        have hpf : pileFlipById
            { src with cards := src.cards.dropLast.dropLast ++ [z.flip] ++ [c] } z.id = src := by
          rw [pileFlipById]
          have hm : (src.cards.dropLast.dropLast ++ [z.flip] ++ [c]).map
              (fun d => if d.id == z.id then d.flip else d) = src.cards := by
            rw [List.map_append, List.map_append]
            have h1 : src.cards.dropLast.dropLast.map
                (fun d => if d.id == z.id then d.flip else d)
                = src.cards.dropLast.dropLast := by
              conv_rhs => rw [show src.cards.dropLast.dropLast
                = src.cards.dropLast.dropLast.map id from (List.map_id _).symm]
              apply List.map_congr_left
              intro e he
              simp [hEz e he]
            have h2 : [z.flip].map (fun d => if d.id == z.id then d.flip else d) = [z] := by
              simp [hflipid, hflipflip]
            have h3 : [c].map (fun d => if d.id == z.id then d.flip else d) = [c] := by
              simp [hcz]
            rw [h1, h2, h3, hE, hD]
          simp only [hm]
        have hflipAll : Game.flipCardById (g.piles.set sIdx
            { src with cards := src.cards.dropLast.dropLast ++ [z.flip] ++ [c] }) z.id
            = g.piles := by
          rw [flipCardById_eq_map]
          apply List.ext_get?
          intro i
          rw [List.get?_map]
          by_cases hi : i = sIdx
          · subst hi
            rw [get?_set_self _ hslt, hs]
            exact congrArg some hpf
          · rw [List.get?_set_ne _ _ (fun h => hi h.symm)]
            cases hgi : g.piles.get? i with
            | none => rfl
            | some p =>
              refine congrArg some ?_
              apply pileFlipById_noop
              intro d hd
              exact pilesCardIds_disjoint hnd hi hgi hs hd hzmem
        simp only [hfp', hmc, GameRules.baseMoveRecordingConfig, reduceIte] at h4
        simp only [Option.some_inj, Prod.mk.injEq, true_and] at h4
        subst h4
        rw [Game.undoMove]
        have hU1 : (((g.piles.set sIdx { src with cards := src.cards.dropLast }).set tIdx
            { target with cards := target.cards ++ [c] }).set sIdx
            { src with cards := src.cards.dropLast.dropLast ++ [z.flip] }).get? tIdx
            = some { target with cards := target.cards ++ [c] } := by
          rw [List.get?_set_ne _ _ hst]
          exact get?_set_self _ (by rw [List.length_set]; exact htlt)
        have hetatgt : (⟨target.ptype, target.index, target.cards, target.maxCards⟩ : Pile)
            = target := rfl
        have hU2 : ((((g.piles.set sIdx { src with cards := src.cards.dropLast }).set tIdx
            { target with cards := target.cards ++ [c] }).set sIdx
            { src with cards := src.cards.dropLast.dropLast ++ [z.flip] }).set tIdx
            target).get? sIdx
            = some { src with cards := src.cards.dropLast.dropLast ++ [z.flip] } := by
          rw [List.get?_set_ne _ _ (Ne.symm hst)]
          exact get?_set_self _ (by rw [List.length_set, List.length_set]; exact hslt)
        have haddF : ({ src with cards := src.cards.dropLast.dropLast ++ [z.flip] } : Pile).addCard c
            = some { src with cards := src.cards.dropLast.dropLast ++ [z.flip] ++ [c] } := by
          rw [Pile.addCard]
          simp only [hsm]
        have hU4 : (((((g.piles.set sIdx { src with cards := src.cards.dropLast }).set tIdx
            { target with cards := target.cards ++ [c] }).set sIdx
            { src with cards := src.cards.dropLast.dropLast ++ [z.flip] }).set tIdx
            target).set sIdx
            { src with cards := src.cards.dropLast.dropLast ++ [z.flip] ++ [c] }).get? tIdx
            = some target := by
          rw [List.get?_set_ne _ _ hst]
          exact get?_set_self _ (by
            rw [List.length_set, List.length_set, List.length_set]; exact htlt)
        have hU5 : (((((g.piles.set sIdx { src with cards := src.cards.dropLast }).set tIdx
            { target with cards := target.cards ++ [c] }).set sIdx
            { src with cards := src.cards.dropLast.dropLast ++ [z.flip] }).set tIdx
            target).set sIdx
            { src with cards := src.cards.dropLast.dropLast ++ [z.flip] ++ [c] }).get? sIdx
            = some { src with cards := src.cards.dropLast.dropLast ++ [z.flip] ++ [c] } :=
          get?_set_self _ (by
            rw [List.length_set, List.length_set, List.length_set, List.length_set]
            exact hslt)
        have hfpN : Game.flipTopCardIfNeededAndRecord R
            { src with cards := src.cards.dropLast.dropLast ++ [z.flip] ++ [c] }
            = ({ src with cards := src.cards.dropLast.dropLast ++ [z.flip] ++ [c] }, none) :=
          flip_noop_of_top_faceUp R _ c Hflip (by rw [List.getLast?_concat]) hface
        have hSallB : ∀ (s' : GameState) (p' : Pile), p'.ptype = target.ptype →
            R.getMoveScore c p' s' = R.getMoveScore c target g :=
          fun s' p' hp => Hscore c p' s' c target g hp
        have hgt2 : (g.piles.set sIdx
            { src with cards := src.cards.dropLast.dropLast ++ [z.flip] ++ [c] }).get? tIdx
            = some target := by
          rw [List.get?_set_ne _ _ hst]; exact ht'
        have hP2 : ((((g.piles.set sIdx { src with cards := src.cards.dropLast }).set tIdx
            { target with cards := target.cards ++ [c] }).set sIdx
            { src with cards := src.cards.dropLast.dropLast ++ [z.flip] }).set tIdx
            target).set sIdx
            { src with cards := src.cards.dropLast.dropLast ++ [z.flip] ++ [c] }
            = g.piles.set sIdx
              { src with cards := src.cards.dropLast.dropLast ++ [z.flip] ++ [c] } := by
          rw [List.set_comm _ _ _ (Ne.symm hst), List.set_set,
            List.set_comm _ _ _ (Ne.symm hst), List.set_set, List.set_set,
            set_get?_same hgt2]
        simp only [List.getLast?_concat, List.dropLast_concat, Pile.removeTopCard,
          hU1, hetatgt, List.set_set, hU2, haddF, hU4, hU5,
          Game.flipTopCardIfNeeded, hfpN]
        simp only [List.set_set, hP2, hflipAll, hSallB, add_sub_cancel_right]
        exact ⟨_, rfl, rfl, rfl, rfl⟩

  · intro cid tIdx sIdx src card cτ stack A g1 hf hA hne hts hfτ h4
    obtain ⟨hs, hc, hcid⟩ := findCardPile_spec hf
    have hslt : sIdx < g.piles.length := lt_length_of_get?_eq_some hs
    have hsm : src.maxCards = none := hmax _ (List.get?_mem hs)
    have hie : stack.isEmpty = false := by
      cases stack with
      | nil => exact absurd rfl hne
      | cons a l => rfl
    have hD2 : A ++ stack = src.cards := hA.symm
    have hrem : src.removeTops stack.length = some { src with cards := A } :=
      removeTops_eq A stack src hA
    cases ht' : g.piles.get? tIdx with
    | none => rw [Game.makeStackMove, ht'] at h4; exact absurd h4 (by simp)
    | some target =>
    have htlt : tIdx < g.piles.length := lt_length_of_get?_eq_some ht'
    have htm : target.maxCards = none := hmax _ (List.get?_mem ht')
    have hv : Game.isValidMove R g cid tIdx = true := by
      cases hvv : Game.isValidMove R g cid tIdx
      · rw [Game.makeStackMove, ht', hvv] at h4; simp at h4
      · rfl
    rw [Game.makeStackMove, ht', hv] at h4
    by_cases hst : sIdx = tIdx
    · subst hst
      have htgt : src = target := by rw [hs] at ht'; exact Option.some_inj.mp ht'
      subst htgt
      have hstep1 : (g.piles.set sIdx { src with cards := A }).get? sIdx
          = some { src with cards := A } := get?_set_self _ hslt
      have haddA : ({ src with cards := A } : Pile).addAll stack
          = some { src with cards := A ++ stack } :=
        addAll_no_max stack { src with cards := A } hsm
      have hstep2 : ((g.piles.set sIdx { src with cards := A }).set sIdx
          { src with cards := A ++ stack }).get? sIdx
          = some { src with cards := A ++ stack } :=
        get?_set_self _ (by rw [List.length_set]; exact hslt)
      have hfpA : Game.flipTopCardIfNeededAndRecord R { src with cards := A ++ stack }
          = ({ src with cards := A ++ stack }, none) :=
        flip_noop_of_top_faceUp R _ cτ Hflip (by
          show (A ++ stack).getLast? = some cτ
          rw [List.getLast?_append, hts]
          rfl) hfτ
      simp only [reduceIte, Bool.true_eq_false, if_false, hf, hrem, haddA, hstep1,
        hstep2, hfpA] at h4
      have hetasrc : (⟨src.ptype, src.index, src.cards, src.maxCards⟩ : Pile) = src := rfl
      simp only [List.set_set, hD2, hetasrc, set_get?_same hs, hmc,
        GameRules.baseMoveRecordingConfig, reduceIte] at h4
      have hetag : (⟨g.piles, g.cardsCount, g.score, g.moves, g.gameStarted, g.gameWon⟩
          : GameState) = g := rfl
      simp only [hetag] at h4
      simp only [Option.some_inj, Prod.mk.injEq, true_and] at h4
      subst h4
      rw [Game.undoMove]
      simp only [List.getLast?_concat, List.dropLast_concat, hie, Bool.false_eq_true,
        if_false, reduceIte, hs, hrem, hstep1, haddA, hstep2, hts]
      have hSall : ∀ (c' : Card) (s' : GameState) (p' : Pile), p'.ptype = src.ptype →
          R.getMoveScore c' p' s' = R.getMoveScore cτ src g :=
        fun c' s' p' hp => Hscore c' p' s' cτ src g hp
      have hfpA' : Game.flipTopCardIfNeededAndRecord R src = (src, none) :=
        flip_noop_of_top_faceUp R src cτ Hflip (by
          rw [hA, List.getLast?_append, hts]; rfl) hfτ
      simp only [Game.flipTopCardIfNeeded, hfpA, hfpA', List.set_set, hD2, hetasrc,
        set_get?_same hs, hSall, add_sub_cancel_right]
      exact ⟨_, rfl, rfl, rfl, rfl⟩
    · -- sIdx ≠ tIdx (stack move)
      have hstep1 : (g.piles.set sIdx { src with cards := A }).get? tIdx
          = some target := by
        rw [List.get?_set_ne _ _ hst]; exact ht'
      have haddB : target.addAll stack
          = some { target with cards := target.cards ++ stack } :=
        addAll_no_max stack target htm
      have hstep2 : ((g.piles.set sIdx { src with cards := A }).set tIdx
          { target with cards := target.cards ++ stack }).get? sIdx
          = some { src with cards := A } := by
        rw [List.get?_set_ne _ _ (Ne.symm hst)]
        exact get?_set_self _ hslt
      simp only [reduceIte, Bool.true_eq_false, if_false, hf, hrem, hstep1, haddB,
        hstep2] at h4
      rcases flip_cases R Hflip { src with cards := A } with hfp | ⟨z, hzl, hzdown, hfp⟩
      · -- no flip recorded
        have hsetsame : ((g.piles.set sIdx { src with cards := A }).set tIdx
            { target with cards := target.cards ++ stack }).set sIdx
            { src with cards := A }
            = (g.piles.set sIdx { src with cards := A }).set tIdx
              { target with cards := target.cards ++ stack } := set_get?_same hstep2
        simp only [hfp, hsetsame, hmc, GameRules.baseMoveRecordingConfig, reduceIte] at h4
        simp only [Option.some_inj, Prod.mk.injEq, true_and] at h4
        subst h4
        rw [Game.undoMove]
        have hstepU1 : ((g.piles.set sIdx { src with cards := A }).set tIdx
            { target with cards := target.cards ++ stack }).get? tIdx
            = some { target with cards := target.cards ++ stack } :=
          get?_set_self _ (by rw [List.length_set]; exact htlt)
        have hremU : ({ target with cards := target.cards ++ stack } : Pile).removeTops
            stack.length = some target :=
          removeTops_eq target.cards stack _ rfl
        have hstepU2 : ((g.piles.set sIdx
            { src with cards := A }).set tIdx target).get? sIdx
            = some { src with cards := A } := by
          rw [List.get?_set_ne _ _ (Ne.symm hst)]
          exact get?_set_self _ hslt
        have hadd0 : ({ src with cards := A } : Pile).addAll stack
            = some { src with cards := A ++ stack } :=
          addAll_no_max stack { src with cards := A } hsm
        have hstepU3 : (((g.piles.set sIdx { src with cards := A }).set tIdx
            target).set sIdx { src with cards := A ++ stack }).get? tIdx
            = some target := by
          rw [List.get?_set_ne _ _ hst]
          exact get?_set_self _ (by rw [List.length_set]; exact htlt)
        have hstepU4 : (((g.piles.set sIdx { src with cards := A }).set tIdx
            target).set sIdx { src with cards := A ++ stack }).get? sIdx
            = some { src with cards := A ++ stack } :=
          get?_set_self _ (by rw [List.length_set, List.length_set]; exact hslt)
        have hfpN : Game.flipTopCardIfNeededAndRecord R
            { src with cards := A ++ stack }
            = ({ src with cards := A ++ stack }, none) :=
          flip_noop_of_top_faceUp R _ cτ Hflip (by
            show (A ++ stack).getLast? = some cτ
            rw [List.getLast?_append, hts]
            rfl) hfτ
        have hSallB : ∀ (c' : Card) (s' : GameState) (p' : Pile), p'.ptype = target.ptype →
            R.getMoveScore c' p' s' = R.getMoveScore cτ target g :=
          fun c' s' p' hp => Hscore c' p' s' cτ target g hp
        have hetasrc : (⟨src.ptype, src.index, src.cards, src.maxCards⟩ : Pile) = src := rfl
        have hfinal : ((g.piles.set sIdx { src with cards := A }).set tIdx
            target).set sIdx src = g.piles := by
          rw [List.set_comm _ _ _ (Ne.symm hst), List.set_set, set_get?_same hs,
            set_get?_same ht']
        simp only [List.getLast?_concat, List.dropLast_concat, hie, Bool.false_eq_true,
          if_false, reduceIte, hstepU1, hremU, List.set_set, hstepU2, hadd0, hstepU3,
          hstepU4, hts, Game.flipTopCardIfNeeded, hfpN]
        simp only [List.set_set, hD2, hetasrc, hfinal, hSallB, add_sub_cancel_right]
        exact ⟨_, rfl, rfl, rfl, rfl⟩
      · -- a face-down card was flipped on the source pile; undo flips it back
        have hzl' : A.getLast? = some z := hzl
        have hfp' : Game.flipTopCardIfNeededAndRecord R { src with cards := A }
            = ({ src with cards := A.dropLast ++ [z.flip] }, some z.id) := hfp
        have hdne : A ≠ [] := by
          intro h0; rw [h0] at hzl'; simp at hzl'
        have hE : A.dropLast ++ [z] = A := by
          have h1 := List.dropLast_append_getLast hdne
          have h2 := List.getLast?_eq_getLast _ hdne
          have h3 := hzl'
          rw [h2, Option.some_inj] at h3
          rw [h3] at h1
          exact h1
        have hSC : src.cards = A.dropLast ++ [z] ++ stack := by
          rw [hE]; exact hA
        have hndsrc : (src.cards.map Card.id).Nodup :=
          pilesCardIds_nodup_within hnd (List.get?_mem hs)
        rw [hSC] at hndsrc
        simp only [List.map_append, List.map_cons, List.map_nil, List.nodup_append,
          List.disjoint_left] at hndsrc
        have hEz : ∀ e ∈ A.dropLast, e.id ≠ z.id := by
          intro e he
          exact fun h0 => hndsrc.1.2.2 (List.mem_map_of_mem _ he) (by simp [h0])
        have hsz : ∀ d ∈ stack, d.id ≠ z.id := by
          intro d hd h0
          have hz_in : z.id ∈ A.dropLast.map Card.id ++ [z.id] := by simp
          exact hndsrc.2.2 hz_in (h0 ▸ List.mem_map_of_mem _ hd)
        have hflipid : z.flip.id = z.id := rfl
        have hflipflip : z.flip.flip = z := by
          cases z; simp [Card.flip, Bool.not_not]
        have hzmem : z ∈ src.cards := by rw [hSC]; simp
        have hpf : pileFlipById
            { src with cards := A.dropLast ++ [z.flip] ++ stack } z.id = src := by
          rw [pileFlipById]
          have hm : (A.dropLast ++ [z.flip] ++ stack).map
              (fun d => if d.id == z.id then d.flip else d) = src.cards := by
            rw [List.map_append, List.map_append]
            have h1 : A.dropLast.map (fun d => if d.id == z.id then d.flip else d)
                = A.dropLast := by
              conv_rhs => rw [show A.dropLast
                = A.dropLast.map id from (List.map_id _).symm]
              apply List.map_congr_left
              intro e he
              simp [hEz e he]
            have h2 : [z.flip].map (fun d => if d.id == z.id then d.flip else d) = [z] := by
              simp [hflipid, hflipflip]
            have h3 : stack.map (fun d => if d.id == z.id then d.flip else d) = stack := by
              conv_rhs => rw [show stack = stack.map id from (List.map_id _).symm]
              apply List.map_congr_left
              intro d hd
              simp [hsz d hd]
            rw [h1, h2, h3, hE, hD2]
          simp only [hm]
        have hflipAll : Game.flipCardById (g.piles.set sIdx
            { src with cards := A.dropLast ++ [z.flip] ++ stack }) z.id
            = g.piles := by
          rw [flipCardById_eq_map]
          apply List.ext_get?
          intro i
          rw [List.get?_map]
          by_cases hi : i = sIdx
          · subst hi
            rw [get?_set_self _ hslt, hs]
            exact congrArg some hpf
          · rw [List.get?_set_ne _ _ (fun h => hi h.symm)]
            cases hgi : g.piles.get? i with
            | none => rfl
            | some p =>
              refine congrArg some ?_
              apply pileFlipById_noop
              intro d hd
              exact pilesCardIds_disjoint hnd hi hgi hs hd hzmem
        simp only [hfp', hmc, GameRules.baseMoveRecordingConfig, reduceIte] at h4
        simp only [Option.some_inj, Prod.mk.injEq, true_and] at h4
        subst h4
        rw [Game.undoMove]
        have hU1 : (((g.piles.set sIdx { src with cards := A }).set tIdx
            { target with cards := target.cards ++ stack }).set sIdx
            { src with cards := A.dropLast ++ [z.flip] }).get? tIdx
            = some { target with cards := target.cards ++ stack } := by
          rw [List.get?_set_ne _ _ hst]
          exact get?_set_self _ (by rw [List.length_set]; exact htlt)
        have hremU : ({ target with cards := target.cards ++ stack } : Pile).removeTops
            stack.length = some target :=
          removeTops_eq target.cards stack _ rfl
        have hU2 : ((((g.piles.set sIdx { src with cards := A }).set tIdx
            { target with cards := target.cards ++ stack }).set sIdx
            { src with cards := A.dropLast ++ [z.flip] }).set tIdx
            target).get? sIdx
            = some { src with cards := A.dropLast ++ [z.flip] } := by
          rw [List.get?_set_ne _ _ (Ne.symm hst)]
          exact get?_set_self _ (by rw [List.length_set, List.length_set]; exact hslt)
        have haddF : ({ src with cards := A.dropLast ++ [z.flip] } : Pile).addAll stack
            = some { src with cards := A.dropLast ++ [z.flip] ++ stack } :=
          addAll_no_max stack { src with cards := A.dropLast ++ [z.flip] } hsm
        have hU4 : (((((g.piles.set sIdx { src with cards := A }).set tIdx
            { target with cards := target.cards ++ stack }).set sIdx
            { src with cards := A.dropLast ++ [z.flip] }).set tIdx
            target).set sIdx
            { src with cards := A.dropLast ++ [z.flip] ++ stack }).get? tIdx
            = some target := by
          rw [List.get?_set_ne _ _ hst]
          exact get?_set_self _ (by
            rw [List.length_set, List.length_set, List.length_set]; exact htlt)
        have hU5 : (((((g.piles.set sIdx { src with cards := A }).set tIdx
            { target with cards := target.cards ++ stack }).set sIdx
            { src with cards := A.dropLast ++ [z.flip] }).set tIdx
            target).set sIdx
            { src with cards := A.dropLast ++ [z.flip] ++ stack }).get? sIdx
            = some { src with cards := A.dropLast ++ [z.flip] ++ stack } :=
          get?_set_self _ (by
            rw [List.length_set, List.length_set, List.length_set, List.length_set]
            exact hslt)
        have hfpN : Game.flipTopCardIfNeededAndRecord R
            { src with cards := A.dropLast ++ [z.flip] ++ stack }
            = ({ src with cards := A.dropLast ++ [z.flip] ++ stack }, none) :=
          flip_noop_of_top_faceUp R _ cτ Hflip (by
            show (A.dropLast ++ [z.flip] ++ stack).getLast? = some cτ
            rw [List.getLast?_append, hts]
            rfl) hfτ
        have hSallB : ∀ (c' : Card) (s' : GameState) (p' : Pile), p'.ptype = target.ptype →
            R.getMoveScore c' p' s' = R.getMoveScore cτ target g :=
          fun c' s' p' hp => Hscore c' p' s' cτ target g hp
        have hgt2 : (g.piles.set sIdx
            { src with cards := A.dropLast ++ [z.flip] ++ stack }).get? tIdx
            = some target := by
          rw [List.get?_set_ne _ _ hst]; exact ht'
        have hP2 : ((((g.piles.set sIdx { src with cards := A }).set tIdx
            { target with cards := target.cards ++ stack }).set sIdx
            { src with cards := A.dropLast ++ [z.flip] }).set tIdx
            target).set sIdx
            { src with cards := A.dropLast ++ [z.flip] ++ stack }
            = g.piles.set sIdx
              { src with cards := A.dropLast ++ [z.flip] ++ stack } := by
          rw [List.set_comm _ _ _ (Ne.symm hst), List.set_set,
            List.set_comm _ _ _ (Ne.symm hst), List.set_set, List.set_set,
            set_get?_same hgt2]
        simp only [List.getLast?_concat, List.dropLast_concat, hie, Bool.false_eq_true,
          if_false, reduceIte, hU1, hremU, List.set_set, hU2, haddF, hU4, hU5, hts,
          Game.flipTopCardIfNeeded, hfpN]
        simp only [List.set_set, hP2, hflipAll, hSallB, add_sub_cancel_right]
        exact ⟨_, rfl, rfl, rfl, rfl⟩

/-- The base scoring table reads only the target pile's type. -/
lemma base_getMoveScore_ptype_only (c₁ : Card) (p₁ : Pile) (s₁ : GameState)
    (c₂ : Card) (p₂ : Pile) (s₂ : GameState) (h : p₁.ptype = p₂.ptype) :
    GameRules.getMoveScore c₁ p₁ s₁ = GameRules.getMoveScore c₂ p₂ s₂ := by
  rw [GameRules.getMoveScore, GameRules.getMoveScore, h]

/-- No base flipping rule uses the `'always'` condition. -/
lemma base_flip_no_always (t : String) (fr : FlipRule)
    (h : GameRules.getCardFlippingRules t = some fr) : fr.flipCondition ≠ "always" := by
  rw [GameRules.getCardFlippingRules] at h
  split at h
  · injection h with h'; subst h'; decide
  · split at h
    · injection h with h'; subst h'; decide
    · split at h
      · injection h with h'; subst h'; decide
      · simp at h

/-- Two tableau piles: `[5 of hearts (up), 4 of spades (down)]` and
`[5 of diamonds (up)]`. -/
def gC3 : GameState :=
  { piles := [⟨"tableau", 0, [⟨10, "hearts", 5, false, none, none, true⟩,
                              ⟨11, "spades", 4, false, none, none, false⟩], none⟩,
              ⟨"tableau", 1, [⟨12, "diamonds", 5, false, none, none, true⟩], none⟩]
    cardsCount := 3, score := 0, moves := [], gameStarted := true, gameWon := false }

/-- The state after `makeMove` of the face-down 4 of spades (id 11) onto
tableau 1. -/
def gC3a : GameState := ((Game.makeMove sawayamaRules gC3 11 1).map Prod.snd).getD gC3

/-- The state after the immediate `undoMove`. -/
def gC3b : GameState := ((Game.undoMove sawayamaRules gC3a).map Prod.snd).getD gC3

/-- Counterexample to C3 as stated: in the Sawayama variant (whose
`canCardBeMovedFromPile` allows moving face-down tableau cards), moving
the face-down 4 of spades onto another tableau pile succeeds, and the
immediate `undoMove` returns `true` and restores the score and the move
log — but not the piles: the card comes back **face up**, because
`undoMove` re-runs the source pile's flip rule after re-adding the card,
and the move itself recorded no flip to compensate. -/
theorem sawayama_facedown_move_undo_differs :
    Game.makeMove sawayamaRules gC3 11 1 = some (true, gC3a) ∧
    Game.undoMove sawayamaRules gC3a = some (true, gC3b) ∧
    gC3b.score = gC3.score ∧ gC3b.moves = gC3.moves ∧
    gC3b.piles ≠ gC3.piles := by
  exact ⟨by decide, by decide, by decide, by decide, by decide⟩

/-- Two tableau piles `[4 of spades (up)]`, `[5 of diamonds (up)]`. -/
def gWit : GameState :=
  { piles := [⟨"tableau", 0, [⟨20, "spades", 4, false, none, none, true⟩], none⟩,
              ⟨"tableau", 1, [⟨21, "diamonds", 5, false, none, none, true⟩], none⟩]
    cardsCount := 2, score := 0, moves := [], gameStarted := true, gameWon := false }

/-- The state after moving the 4 of spades (id 20) onto tableau 1. -/
def gWit1 : GameState := ((Game.makeMove sawayamaRules gWit 20 1).map Prod.snd).getD gWit

/-- Witness for C3's theorem: a concrete face-up top-card Sawayama move
whose undo restores the original state. -/
theorem undo_restores_topcard_moves_witness :
    ∃ g2, Game.undoMove sawayamaRules gWit1 = some (true, g2) ∧
      g2.piles = gWit.piles ∧ g2.score = gWit.score ∧ g2.moves = gWit.moves :=
  (undo_restores_topcard_moves sawayamaRules gWit rfl
      (fun c₁ p₁ s₁ c₂ p₂ s₂ h => base_getMoveScore_ptype_only c₁ p₁ s₁ c₂ p₂ s₂ h)
      (fun t fr h => base_flip_no_always t fr h)
      (by intro p hp; fin_cases hp <;> rfl)
      (by decide)).1
    20 1 0 ⟨"tableau", 0, [⟨20, "spades", 4, false, none, none, true⟩], none⟩
    ⟨20, "spades", 4, false, none, none, true⟩ gWit1
    (by decide) (by decide) (by decide) (by decide)
